import Mathlib

/-!
Shallow embedding of the connection/credential lifecycle manager of
`server/services/lakebase_service.py` (class `LakebaseService`) together with
the exception types of `server/exceptions.py`, and proofs of the behavioural
properties claimed about them.

External effects (the Databricks SDK credential provider, psycopg2 pool
construction, leasing, the liveness probe, and query execution) are modelled
by a `World` whose fields give the outcome of the n-th call of each kind.
Every external interaction is recorded in an event trace so that call counts
and lease balance can be stated and proved.
-/

set_option maxHeartbeats 1000000

namespace Lakebase

/-- Model of the Python exception classes that can flow through
`lakebase_service.py`.  The `pg*` constructors are the psycopg2 classes
(`OperationalError`, `ProgrammingError`, `DataError`, `IntegrityError`,
`InterfaceError`, `pool.PoolError`); `dbConnErr` / `dbQueryErr` are the
repository's `DatabaseConnectionError` / `DatabaseQueryError`; `sdkErr` is a
Databricks SDK (credential-provider) failure; `runtimeGenErr` is the
`RuntimeError` raised by the `contextlib` protocol when a generator yields
again after an exception was thrown into it. -/
inductive PyErr where
  | pgOperational (msg : String)
  | pgProgramming (msg : String)
  | pgData (msg : String)
  | pgIntegrity (msg : String)
  | pgInterface (msg : String)
  | pgPoolError (msg : String)
  | dbConnErr (detail : String)
  | dbQueryErr (detail : String)
  | sdkErr (msg : String)
  | runtimeGenErr (msg : String)
  | otherErr (msg : String)
  deriving DecidableEq, Repr

/-- `isinstance(e, psycopg2.OperationalError)` — the class caught by the
retry handler in `get_connection`. -/
def PyErr.isOperational : PyErr → Bool
  | .pgOperational _ => true
  | _ => false

/-- `isinstance(e, psycopg2.Error)` — the root class of all psycopg2
exceptions, caught by the last handler of `execute_query`. -/
def PyErr.isPsycopg2 : PyErr → Bool
  | .pgOperational _ => true
  | .pgProgramming _ => true
  | .pgData _ => true
  | .pgIntegrity _ => true
  | .pgInterface _ => true
  | .pgPoolError _ => true
  | _ => false

/-- `isinstance(e, psycopg2.ProgrammingError)`. -/
def PyErr.isProgramming : PyErr → Bool
  | .pgProgramming _ => true
  | _ => false

/-- `isinstance(e, DatabaseConnectionError)`. -/
def PyErr.isDbConn : PyErr → Bool
  | .dbConnErr _ => true
  | _ => false

/-- The spec's SQL-execution class: malformed statement, constraint
violation, type mismatch (`ProgrammingError`, `IntegrityError`,
`DataError`). -/
def PyErr.isSqlExecClass : PyErr → Bool
  | .pgProgramming _ => true
  | .pgIntegrity _ => true
  | .pgData _ => true
  | _ => false

/-- `str(e)`: the message carried by the exception. -/
def PyErr.msg : PyErr → String
  | .pgOperational m => m
  | .pgProgramming m => m
  | .pgData m => m
  | .pgIntegrity m => m
  | .pgInterface m => m
  | .pgPoolError m => m
  | .dbConnErr m => m
  | .dbQueryErr m => m
  | .sdkErr m => m
  | .runtimeGenErr m => m
  | .otherErr m => m

/-- Database values flowing through the driver (bind parameters and result
cells). -/
inductive PyVal where
  | vint (n : Int)
  | vstr (s : String)
  | vnull
  deriving DecidableEq, Repr

/-- Observable events of a run: provider interactions, pool construction,
lease/release of pooled connections, the liveness probe, pool reset, and the
SQL text (plus separately-bound parameters) handed to the driver. -/
inductive Event where
  | issueToken
  | resolveEndpoint
  | buildAttempt
  | built (pid : Nat)
  | leaseAttempt
  | getconn (pid cid : Nat)
  | putconn (pid cid : Nat)
  | probe
  | reset
  | execSql (sqlText : String) (params : List PyVal)
  deriving DecidableEq, Repr

/-- `_token_cache`: cached token value (None initially) and its
locally-estimated expiry (`time.time()` modelled as a natural number). -/
structure TokenCache where
  token : Option String
  expiresAt : Nat
  deriving DecidableEq, Repr

/-- `_pool_config`: the endpoint snapshot used to build the pool. -/
structure PoolConfig where
  host : String
  port : Nat
  dbname : String
  user : String
  sslmode : String
  deriving DecidableEq, Repr

/-- The module-level mutable globals of `lakebase_service.py`:
`_token_cache`, `_connection_pool` (pool handles are identified by a
natural number), `_pool_config`, plus a counter supplying fresh pool
identifiers. -/
structure SvcState where
  tokenCache : TokenCache
  connectionPool : Option Nat
  poolConfig : Option PoolConfig
  poolsBuilt : Nat
  deriving DecidableEq, Repr

/-- The globals at module import: `{"token": None, "expires_at": 0}`,
`_connection_pool = None`, `_pool_config = None`. -/
def initState : SvcState := ⟨⟨none, 0⟩, none, none, 0⟩

/-- The settings consumed by the service (`server/config.py`). -/
structure Settings where
  lakebaseSchema : String
  tokenRefreshInterval : Nat
  poolMinConnections : Nat
  poolMaxConnections : Nat
  deriving DecidableEq, Repr

/-- Defaults from `server/config.py`. -/
def defaultSettings : Settings := ⟨"gold", 900, 2, 10⟩

/-- Outcomes of the external world, indexed by the number of calls of the
same kind made so far: `issueToken` is `generate_database_credential`
(returns the token string), `resolveEndpoint` is the
`get_database_instance` + `current_user.me()` pair (returns host and
username), `buildPool` is `ThreadedConnectionPool(...)` construction,
`leaseConn` is `pool.getconn()` (returns a connection id), `probeConn` is
the `SELECT 1` liveness probe, and `query` is `cursor.execute` + `fetchall`
(returns column names and rows). -/
structure World where
  issueToken : Nat → Except PyErr String
  resolveEndpoint : Nat → Except PyErr (String × String)
  buildPool : Nat → Except PyErr Unit
  leaseConn : Nat → Except PyErr Nat
  probeConn : Nat → Except PyErr Unit
  query : String → List PyVal → Except PyErr (List String × List (List PyVal))

/-- Execution context: the mutable globals plus the event trace so far. -/
structure Ctx where
  st : SvcState
  trace : List Event
  deriving DecidableEq, Repr

def initCtx (st : SvcState) : Ctx := ⟨st, []⟩

/-- Number of occurrences of an event in a trace. -/
def cnt (e : Event) (tr : List Event) : Nat :=
  (tr.filter (fun x => decide (x = e))).length

def Ctx.nIssue (c : Ctx) : Nat := cnt Event.issueToken c.trace

def Ctx.nResolve (c : Ctx) : Nat := cnt Event.resolveEndpoint c.trace

def Ctx.nBuild (c : Ctx) : Nat := cnt Event.buildAttempt c.trace

def Ctx.nLease (c : Ctx) : Nat := cnt Event.leaseAttempt c.trace

def Ctx.nProbe (c : Ctx) : Nat := cnt Event.probe c.trace

def Ctx.nReset (c : Ctx) : Nat := cnt Event.reset c.trace

/-- Python truthiness of the cached token (`if _token_cache["token"] and ...`):
`None` and the empty string are falsy. -/
def tokenTruthy : Option String → Bool
  | none => false
  | some t => t != ""

/-- `LakebaseService._get_fresh_token`: return the cached token when it is
truthy and `now < expires_at`; otherwise call the credential provider once,
cache the returned token with expiry `now + token_refresh_interval`, and
return it.  A provider failure propagates unchanged (state untouched). -/
def get_fresh_token (w : World) (stg : Settings) (now : Nat) (c : Ctx) :
    Except PyErr String × Ctx :=
  if tokenTruthy c.st.tokenCache.token && decide (now < c.st.tokenCache.expiresAt) then
    (Except.ok (c.st.tokenCache.token.getD ""), c)
  else
    let c1 : Ctx := { c with trace := c.trace ++ [Event.issueToken] }
    match w.issueToken c.nIssue with
    | Except.error e => (Except.error e, c1)
    | Except.ok tok =>
      (Except.ok tok,
       { c1 with st := { c1.st with
           tokenCache := ⟨some tok, now + stg.tokenRefreshInterval⟩ } })

/-- `LakebaseService._get_connection_pool`: the source resolves the instance
endpoint and the current user unconditionally — before checking whether the
pool already exists — then, only when `_connection_pool is None`, stores the
config snapshot, fetches a token via `_get_fresh_token` and constructs the
pool (the token fetch happens while evaluating the constructor's arguments,
so it precedes the construction attempt). -/
def get_connection_pool (w : World) (stg : Settings) (now : Nat) (c : Ctx) :
    Except PyErr Nat × Ctx :=
  let c1 : Ctx := { c with trace := c.trace ++ [Event.resolveEndpoint] }
  match w.resolveEndpoint c.nResolve with
  | Except.error e => (Except.error e, c1)
  | Except.ok hostUser =>
    match c1.st.connectionPool with
    | some pid => (Except.ok pid, c1)
    | none =>
      let cfg : PoolConfig :=
        ⟨hostUser.1, 5432, "databricks_postgres", hostUser.2, "require"⟩
      let c2 : Ctx := { c1 with st := { c1.st with poolConfig := some cfg } }
      match get_fresh_token w stg now c2 with
      | (Except.error e, c3) => (Except.error e, c3)
      | (Except.ok _tok, c3) =>
        let c4 : Ctx := { c3 with trace := c3.trace ++ [Event.buildAttempt] }
        match w.buildPool c3.nBuild with
        | Except.error e => (Except.error e, c4)
        | Except.ok _ =>
          let pid := c4.st.poolsBuilt
          (Except.ok pid,
           { c4 with
             st := { c4.st with connectionPool := some pid, poolsBuilt := pid + 1 },
             trace := c4.trace ++ [Event.built pid] })

/-- `LakebaseService._reset_pool`: close all connections (best effort),
clear the pool handle, clear the token cache (`_pool_config` is not
cleared by the source). -/
def reset_pool (c : Ctx) : Ctx :=
  { c with
    st := { c.st with connectionPool := none, tokenCache := ⟨none, 0⟩ },
    trace := c.trace ++ [Event.reset] }

/-- `conn_pool.getconn()`: lease a connection from pool `pid`; may fail
(e.g. `pool.PoolError` on exhaustion, `OperationalError` when the pool has
to open a fresh connection). -/
def pool_getconn (w : World) (pid : Nat) (c : Ctx) : Except PyErr Nat × Ctx :=
  let c1 : Ctx := { c with trace := c.trace ++ [Event.leaseAttempt] }
  match w.leaseConn c.nLease with
  | Except.error e => (Except.error e, c1)
  | Except.ok cid =>
    (Except.ok cid, { c1 with trace := c1.trace ++ [Event.getconn pid cid] })

/-- `conn_pool.putconn(conn)`. -/
def pool_putconn (pid cid : Nat) (c : Ctx) : Ctx :=
  { c with trace := c.trace ++ [Event.putconn pid cid] }

/-- `conn.cursor().execute("SELECT 1")` — the liveness probe. -/
def probe_conn (w : World) (c : Ctx) : Except PyErr Unit × Ctx :=
  let c1 : Ctx := { c with trace := c.trace ++ [Event.probe] }
  (w.probeConn c.nProbe, c1)

/-- `self._get_connection_pool()` followed by `conn_pool.getconn()` — the
pool-acquire + lease prefix shared by both attempts of `get_connection`.
On success returns the pool id and the leased connection id. -/
def acquire_and_lease (w : World) (stg : Settings) (now : Nat) (c : Ctx) :
    Except PyErr (Nat × Nat) × Ctx :=
  match get_connection_pool w stg now c with
  | (Except.error e, c1) => (Except.error e, c1)
  | (Except.ok pid, c1) =>
    match pool_getconn w pid c1 with
    | (Except.error e, c2) => (Except.error e, c2)
    | (Except.ok cid, c2) => (Except.ok (pid, cid), c2)

/-- The first attempt of `get_connection` up to (but not including) the
yield: acquire the pool, lease a connection, run the liveness probe.  When
the probe fails the `finally` clause returns the connection before the
exception reaches the retry handler. -/
def first_attempt (w : World) (stg : Settings) (now : Nat) (c : Ctx) :
    Except PyErr (Nat × Nat) × Ctx :=
  match acquire_and_lease w stg now c with
  | (Except.error e, c1) => (Except.error e, c1)
  | (Except.ok pc, c1) =>
    match probe_conn w c1 with
    | (Except.error e, c2) => (Except.error e, pool_putconn pc.1 pc.2 c2)
    | (Except.ok _, c2) => (Except.ok pc, c2)

/-- The recovery path of `get_connection`: `_reset_pool()`, then acquire the
pool and lease again — with no liveness probe.  `bodyPending = true` means
the first attempt failed before its yield, so the retry's yield is the first
one the `contextlib` protocol sees and the caller's block runs here;
`bodyPending = false` means the caller's block already ran and raised an
`OperationalError` that was thrown into the generator, so the retry's yield
is a second yield after `throw()` and the protocol raises
`RuntimeError("generator didn't stop after throw()")` — the connection
leased for that second yield is released when the generator is finalised
(its `finally` clause runs on `close()`).
A connectivity failure of this path (`except psycopg2.OperationalError as
retry_error`) is raised as `DatabaseConnectionError(detail=str(retry_error))`;
any other exception propagates unchanged. -/
def retry_path {α : Type} (w : World) (stg : Settings) (now : Nat)
    (bodyPending : Bool) (body : Nat → Ctx → Except PyErr α × Ctx) (c : Ctx) :
    Except PyErr α × Ctx :=
  let c0 := reset_pool c
  match acquire_and_lease w stg now c0 with
  | (Except.error e, c1) =>
    if e.isOperational then (Except.error (PyErr.dbConnErr e.msg), c1)
    else (Except.error e, c1)
  | (Except.ok pc, c1) =>
    if bodyPending then
      match body pc.2 c1 with
      | (Except.ok a, c2) => (Except.ok a, pool_putconn pc.1 pc.2 c2)
      | (Except.error e, c2) =>
        let c3 := pool_putconn pc.1 pc.2 c2
        if e.isOperational then (Except.error (PyErr.dbConnErr e.msg), c3)
        else (Except.error e, c3)
    else
      (Except.error (PyErr.runtimeGenErr "generator did not stop after throw"),
       pool_putconn pc.1 pc.2 c1)

/-- `with self.get_connection() as conn: body` — the generator of
`LakebaseService.get_connection` composed with the `contextlib`
context-manager protocol.  First attempt: acquire pool, lease, probe, yield;
`finally` returns the lease on every exit.  A `psycopg2.OperationalError`
raised before the yield (pool acquisition, lease, probe) or thrown into the
generator by the caller's block triggers the single recovery path; any
other exception propagates unchanged. -/
def with_connection {α : Type} (w : World) (stg : Settings) (now : Nat)
    (body : Nat → Ctx → Except PyErr α × Ctx) (c : Ctx) :
    Except PyErr α × Ctx :=
  match first_attempt w stg now c with
  | (Except.error e, c1) =>
    if e.isOperational then retry_path w stg now true body c1
    else (Except.error e, c1)
  | (Except.ok pc, c1) =>
    match body pc.2 c1 with
    | (Except.ok a, c2) => (Except.ok a, pool_putconn pc.1 pc.2 c2)
    | (Except.error e, c2) =>
      let c3 := pool_putconn pc.1 pc.2 c2
      if e.isOperational then retry_path w stg now false body c3
      else (Except.error e, c3)

def lbrace : Char := Char.ofNat 123

def rbrace : Char := Char.ofNat 125

/-- The characters of the substitution field `schema` followed by the
closing brace. -/
def schemaKey : List Char := "schema".toList ++ [rbrace]

/-- `sql.format(schema=...)` on the character list: `{{` and `}}` are brace
escapes, `{schema}` is replaced by the schema name, everything else is
copied (the repository's templates use no other substitution field).  The
fuel argument only forces structural recursion; any fuel at least the
length of the input yields the full translation. -/
def formatSchemaAux (schema : List Char) : Nat → List Char → List Char
  | 0, l => l
  | _ + 1, [] => []
  | fuel + 1, ch :: rest =>
    if ch = lbrace then
      if rest.take 1 = [lbrace] then
        lbrace :: formatSchemaAux schema fuel (rest.drop 1)
      else if rest.take 7 = schemaKey then
        schema ++ formatSchemaAux schema fuel (rest.drop 7)
      else ch :: formatSchemaAux schema fuel rest
    else if ch = rbrace then
      if rest.take 1 = [rbrace] then
        rbrace :: formatSchemaAux schema fuel (rest.drop 1)
      else ch :: formatSchemaAux schema fuel rest
    else ch :: formatSchemaAux schema fuel rest

/-- `sql.format(schema=self.schema)`: the only transformation applied to the
SQL text before it is handed to the driver. -/
def formatSchema (tmpl schema : String) : String :=
  String.mk (formatSchemaAux schema.toList tmpl.toList.length tmpl.toList)

/-- Python dict insertion: an existing key keeps its position and receives
the new value; a new key is appended at the end. -/
def dictInsert (d : List (String × PyVal)) (k : String) (v : PyVal) :
    List (String × PyVal) :=
  if d.any (fun p => p.1 == k) then
    d.map (fun p => if p.1 == k then (k, v) else p)
  else d ++ [(k, v)]

/-- `dict(pairs)`: left fold of insertions into an empty dict. -/
def dictOfPairs (ps : List (String × PyVal)) : List (String × PyVal) :=
  ps.foldl (fun d p => dictInsert d p.1 p.2) []

/-- `dict(zip(columns, row))`. -/
def rowDict (columns : List String) (row : List PyVal) : List (String × PyVal) :=
  dictOfPairs (columns.zip row)

/-- The body of `execute_query`'s `with` block: substitute the `{schema}`
slot, hand the SQL text and the bind parameters separately to the driver
(`cur.execute(formatted_sql, params)` — recorded as an `execSql` event),
fetch all rows, and build one dict per row by zipping the result's column
names with that row's values. -/
def cursor_body (w : World) (schema : String) (sql : String) (params : List PyVal)
    (_cid : Nat) (c : Ctx) : Except PyErr (List (List (String × PyVal))) × Ctx :=
  let fsql := formatSchema sql schema
  let c1 : Ctx := { c with trace := c.trace ++ [Event.execSql fsql params] }
  match w.query fsql params with
  | Except.error e => (Except.error e, c1)
  | Except.ok cr => (Except.ok (cr.2.map (fun row => rowDict cr.1 row)), c1)

/-- `LakebaseService.execute_query`: run the cursor body under
`get_connection`; re-raise `DatabaseConnectionError` unchanged, convert a
`psycopg2.ProgrammingError` — and then any other `psycopg2.Error` — into
`DatabaseQueryError(detail=str(e))`, and let every other exception
propagate as-is. -/
def execute_query (w : World) (stg : Settings) (now : Nat)
    (sql : String) (params : List PyVal) (c : Ctx) :
    Except PyErr (List (List (String × PyVal))) × Ctx :=
  match with_connection w stg now (cursor_body w stg.lakebaseSchema sql params) c with
  | (Except.ok rows, c1) => (Except.ok rows, c1)
  | (Except.error e, c1) =>
    if e.isDbConn then (Except.error e, c1)
    else if e.isProgramming then (Except.error (PyErr.dbQueryErr e.msg), c1)
    else if e.isPsycopg2 then (Except.error (PyErr.dbQueryErr e.msg), c1)
    else (Except.error e, c1)

/-- Iterate `_get_fresh_token` at the given sequence of call times. -/
def run_token_calls (w : World) (stg : Settings) (times : List Nat) (c : Ctx) : Ctx :=
  times.foldl (fun acc t => (get_fresh_token w stg t acc).2) c

/-- One caller's progress through the unsynchronised check-then-create of
`_get_connection_pool` (`if _connection_pool is None: ...
_connection_pool = ThreadedConnectionPool(...)`), reduced to its two atomic
steps on the shared global: read the handle, then — when the read saw
`None` — construct a fresh pool and write the handle. -/
inductive ThreadPhase where
  | start
  | checked (sawNone : Bool)
  | done (pid : Nat)
  deriving DecidableEq, Repr

/-- Shared globals plus the positions of two concurrent callers. -/
structure ConcState where
  pool : Option Nat
  built : Nat
  thread1 : ThreadPhase
  thread2 : ThreadPhase
  deriving DecidableEq, Repr

/-- No pool exists yet; both callers are about to run the check. -/
def initConc : ConcState := ⟨none, 0, ThreadPhase.start, ThreadPhase.start⟩

/-- One atomic step of a caller: read-check, or create-and-write, or read
the existing handle. `built` counts pool constructions and supplies ids. -/
def phaseStep (pool : Option Nat) (built : Nat) (ph : ThreadPhase) :
    Option Nat × Nat × ThreadPhase :=
  match ph with
  | ThreadPhase.start => (pool, built, ThreadPhase.checked (pool == none))
  | ThreadPhase.checked true => (some built, built + 1, ThreadPhase.done built)
  | ThreadPhase.checked false => (pool, built, ThreadPhase.done (pool.getD 0))
  | ThreadPhase.done pid => (pool, built, ThreadPhase.done pid)

/-- Advance the scheduled thread (`true` = thread 1) by one atomic step. -/
def concStep (s : ConcState) (tid : Bool) : ConcState :=
  if tid then
    let r := phaseStep s.pool s.built s.thread1
    { pool := r.1, built := r.2.1, thread1 := r.2.2, thread2 := s.thread2 }
  else
    let r := phaseStep s.pool s.built s.thread2
    { pool := r.1, built := r.2.1, thread1 := s.thread1, thread2 := r.2.2 }

/-- Run an interleaving of the two callers from the empty-pool state. -/
def runSchedule (sched : List Bool) : ConcState :=
  sched.foldl concStep initConc

/-- A world where every external interaction succeeds: the provider returns
an endpoint and a token, pool construction succeeds, leases hand out
connection ids 100, 101, ..., probes pass, and every query returns a single
row with one column `x = 1`. -/
def wOk : World :=
  { issueToken := fun _ => Except.ok "tok"
  , resolveEndpoint := fun _ => Except.ok ("host.example", "user@example.com")
  , buildPool := fun _ => Except.ok ()
  , leaseConn := fun n => Except.ok (100 + n)
  , probeConn := fun _ => Except.ok ()
  , query := fun _ _ => Except.ok (["x"], [[PyVal.vint 1]]) }

/-- Like `wOk` but every pool construction fails with an auth-style
`psycopg2.OperationalError` (e.g. an expired password). -/
def wBuildFail : World :=
  { wOk with buildPool := fun _ => Except.error (PyErr.pgOperational "password authentication failed") }

/-- Like `wOk` but endpoint resolution fails inside the credential provider
(a Databricks SDK error, not a psycopg2 class). -/
def wResolveSdkFail : World :=
  { wOk with resolveEndpoint := fun _ => Except.error (PyErr.sdkErr "credential provider unavailable") }

/-- Like `wOk` but token issuance fails inside the credential provider. -/
def wIssueSdkFail : World :=
  { wOk with issueToken := fun _ => Except.error (PyErr.sdkErr "token issuance denied") }

/-- Like `wOk` but every liveness probe fails with an
`OperationalError` (dead leased connection). -/
def wProbeFail : World :=
  { wOk with probeConn := fun _ => Except.error (PyErr.pgOperational "server closed the connection unexpectedly") }

/-- Like `wOk` but query execution fails with a `psycopg2.InterfaceError`
(a driver error that is not in the SQL-execution class). -/
def wQueryInterfaceFail : World :=
  { wOk with query := fun _ _ => Except.error (PyErr.pgInterface "connection already closed") }

/-- Like `wOk` but query execution fails with a
`psycopg2.ProgrammingError` (malformed statement). -/
def wQueryProgFail : World :=
  { wOk with query := fun _ _ => Except.error (PyErr.pgProgramming "syntax error at or near SELEC") }

/-- Lift a pure caller block (no events of its own) to the body type. -/
def pureBody {α : Type} (f : Nat → Except PyErr α) :
    Nat → Ctx → Except PyErr α × Ctx :=
  fun cid c => (f cid, c)

/-- A caller block that succeeds, returning the leased connection id. -/
def okBody : Nat → Ctx → Except PyErr Nat × Ctx :=
  pureBody (fun cid => Except.ok cid)

/-- A caller block that raises `psycopg2.OperationalError` (e.g.
`cursor.execute` on a connection whose server side died). -/
def opFailBody : Nat → Ctx → Except PyErr Nat × Ctx :=
  pureBody (fun _ => Except.error (PyErr.pgOperational "SSL connection has been closed unexpectedly"))

/-- A caller block is tame when it only appends to the trace events that are
neither pool-lease bookkeeping nor connection-manager internals — the
repository's blocks only run cursor operations (`execSql` events). -/
def BodyTame {α : Type} (body : Nat → Ctx → Except PyErr α × Ctx) : Prop :=
  ∀ cid c r c1, body cid c = (r, c1) →
    (∀ p i, cnt (Event.getconn p i) c1.trace = cnt (Event.getconn p i) c.trace
      ∧ cnt (Event.putconn p i) c1.trace = cnt (Event.putconn p i) c.trace)
    ∧ cnt Event.reset c1.trace = cnt Event.reset c.trace
    ∧ cnt Event.probe c1.trace = cnt Event.probe c.trace
    ∧ cnt Event.buildAttempt c1.trace = cnt Event.buildAttempt c.trace
    ∧ cnt Event.leaseAttempt c1.trace = cnt Event.leaseAttempt c.trace
    ∧ cnt Event.resolveEndpoint c1.trace = cnt Event.resolveEndpoint c.trace
    ∧ cnt Event.issueToken c1.trace = cnt Event.issueToken c.trace

/-- Every lease taken in the trace has been returned: for each pool id and
connection id, `getconn` and `putconn` events are in bijection. -/
def LeaseBalanced (tr : List Event) : Prop :=
  ∀ p i, cnt (Event.getconn p i) tr = cnt (Event.putconn p i) tr

/-- Every SQL text handed to the driver in this trace equals `s0`. -/
def SqlTextsAre (s0 : String) (tr : List Event) : Prop :=
  ∀ s ps, Event.execSql s ps ∈ tr → s = s0

@[simp] theorem cnt_nil (e : Event) : cnt e [] = 0 := rfl

@[simp] theorem cnt_append (e : Event) (l1 l2 : List Event) :
    cnt e (l1 ++ l2) = cnt e l1 + cnt e l2 := by
  simp [cnt, List.filter_append]

@[simp] theorem cnt_single (e x : Event) : cnt e [x] = if x = e then 1 else 0 := by
  by_cases h : x = e <;> simp [cnt, h]

@[simp] theorem cnt_cons (e x : Event) (l : List Event) :
    cnt e (x :: l) = cnt e l + if x = e then 1 else 0 := by
  by_cases h : x = e <;> simp [cnt, h, List.filter_cons]

/-- Count bounds for `_get_fresh_token`: at most one provider token call is
added to the trace; nothing else. -/
theorem gft_counts (w : World) (stg : Settings) (now : Nat) {c : Ctx}
    {r : Except PyErr String} {c1 : Ctx}
    (h : get_fresh_token w stg now c = (r, c1)) :
    cnt Event.issueToken c1.trace ≤ cnt Event.issueToken c.trace + 1
    ∧ cnt Event.resolveEndpoint c1.trace = cnt Event.resolveEndpoint c.trace
    ∧ cnt Event.buildAttempt c1.trace = cnt Event.buildAttempt c.trace
    ∧ cnt Event.leaseAttempt c1.trace = cnt Event.leaseAttempt c.trace
    ∧ cnt Event.probe c1.trace = cnt Event.probe c.trace
    ∧ cnt Event.reset c1.trace = cnt Event.reset c.trace
    ∧ (∀ p i, cnt (Event.getconn p i) c1.trace = cnt (Event.getconn p i) c.trace
        ∧ cnt (Event.putconn p i) c1.trace = cnt (Event.putconn p i) c.trace)
    ∧ (∀ s ps, cnt (Event.execSql s ps) c1.trace
        = cnt (Event.execSql s ps) c.trace) := by
  unfold get_fresh_token at h
  split at h
  · injection h with h1 h2
    subst h2
    simp [cnt_append, cnt_single, cnt_cons, cnt_nil]
  · split at h <;>
    · injection h with h1 h2
      subst h2
      simp [cnt_append, cnt_single, cnt_cons, cnt_nil]

theorem cnt_get_put_single (a b p i : Nat) :
    cnt (Event.getconn p i) [Event.getconn a b]
      = cnt (Event.putconn p i) [Event.putconn a b] := by
  by_cases h1 : a = p <;> by_cases h2 : b = i <;> simp [cnt, h1, h2]

theorem reset_pool_trace (c : Ctx) :
    (reset_pool c).trace = c.trace ++ [Event.reset] := rfl

theorem pool_putconn_trace (p i : Nat) (c : Ctx) :
    (pool_putconn p i c).trace = c.trace ++ [Event.putconn p i] := rfl

theorem probe_conn_trace (w : World) (c : Ctx) :
    (probe_conn w c).2.trace = c.trace ++ [Event.probe] := rfl

/-- A failed lease appends exactly the lease attempt. -/
theorem pool_getconn_err (w : World) (pid : Nat) {c : Ctx} {e : PyErr} {c1 : Ctx}
    (h : pool_getconn w pid c = (Except.error e, c1)) :
    c1.trace = c.trace ++ [Event.leaseAttempt] := by
  unfold pool_getconn at h
  split at h <;> injection h with h1 h2 <;> subst h2
  · rfl
  · exact absurd h1 (by simp)

/-- A successful lease appends the attempt and the `getconn` event. -/
theorem pool_getconn_ok (w : World) (pid : Nat) {c : Ctx} {cid : Nat} {c1 : Ctx}
    (h : pool_getconn w pid c = (Except.ok cid, c1)) :
    c1.trace = c.trace ++ [Event.leaseAttempt, Event.getconn pid cid] := by
  unfold pool_getconn at h
  split at h <;> injection h with h1 h2 <;> subst h2
  · exact absurd h1 (by simp)
  · injection h1 with h1
    subst h1
    simp

/-- Count bounds for `_get_connection_pool`: exactly one endpoint
resolution, at most one token issuance and one pool-construction attempt
are added to the trace; no probe, reset or lease bookkeeping. -/
theorem gcp_counts (w : World) (stg : Settings) (now : Nat) {c : Ctx}
    {r : Except PyErr Nat} {c1 : Ctx}
    (h : get_connection_pool w stg now c = (r, c1)) :
    cnt Event.resolveEndpoint c1.trace = cnt Event.resolveEndpoint c.trace + 1
    ∧ cnt Event.issueToken c1.trace ≤ cnt Event.issueToken c.trace + 1
    ∧ cnt Event.buildAttempt c1.trace ≤ cnt Event.buildAttempt c.trace + 1
    ∧ cnt Event.leaseAttempt c1.trace = cnt Event.leaseAttempt c.trace
    ∧ cnt Event.probe c1.trace = cnt Event.probe c.trace
    ∧ cnt Event.reset c1.trace = cnt Event.reset c.trace
    ∧ (∀ p i, cnt (Event.getconn p i) c1.trace = cnt (Event.getconn p i) c.trace
        ∧ cnt (Event.putconn p i) c1.trace = cnt (Event.putconn p i) c.trace)
    ∧ (∀ s ps, cnt (Event.execSql s ps) c1.trace
        = cnt (Event.execSql s ps) c.trace) := by
  unfold get_connection_pool at h
  dsimp only at h
  split at h
  · injection h with h1 h2
    subst h2
    simp [cnt_append, cnt_single, cnt_cons, cnt_nil]
  · split at h
    · injection h with h1 h2
      subst h2
      simp [cnt_append, cnt_single, cnt_cons, cnt_nil]
    · split at h
      next e c3 heq =>
        have H := gft_counts w stg now heq
        injection h with h1 h2
        subst h2
        simp [cnt_append, cnt_single, cnt_cons, cnt_nil] at H
        obtain ⟨H1, H2, H3, H4, H5, H6, H7, H8⟩ := H
        refine ⟨by omega, by omega, by omega, by omega, by omega, by omega,
          fun p i => ⟨?_, ?_⟩, fun s ps => ?_⟩
        · have := (H7 p i).1; omega
        · have := (H7 p i).2; omega
        · have := H8 s ps; omega
      next tok c3 heq =>
        have H := gft_counts w stg now heq
        simp [cnt_append, cnt_single, cnt_cons, cnt_nil] at H
        obtain ⟨H1, H2, H3, H4, H5, H6, H7, H8⟩ := H
        split at h <;>
        · injection h with h1 h2
          subst h2
          simp [cnt_append, cnt_single, cnt_cons, cnt_nil]
          refine ⟨by omega, by omega, by omega, by omega, by omega, by omega,
            fun p i => ⟨?_, ?_⟩, fun s ps => ?_⟩
          · have := (H7 p i).1; omega
          · have := (H7 p i).2; omega
          · have := H8 s ps; omega

/-- A failed pool-acquire + lease: one endpoint resolution, at most one
token issuance, pool build and lease attempt; no probe, reset, lease
bookkeeping or SQL. -/
theorem aal_err (w : World) (stg : Settings) (now : Nat) {c : Ctx} {e : PyErr}
    {c1 : Ctx} (h : acquire_and_lease w stg now c = (Except.error e, c1)) :
    cnt Event.resolveEndpoint c1.trace = cnt Event.resolveEndpoint c.trace + 1
    ∧ cnt Event.issueToken c1.trace ≤ cnt Event.issueToken c.trace + 1
    ∧ cnt Event.buildAttempt c1.trace ≤ cnt Event.buildAttempt c.trace + 1
    ∧ cnt Event.leaseAttempt c1.trace ≤ cnt Event.leaseAttempt c.trace + 1
    ∧ cnt Event.probe c1.trace = cnt Event.probe c.trace
    ∧ cnt Event.reset c1.trace = cnt Event.reset c.trace
    ∧ (∀ p i, cnt (Event.getconn p i) c1.trace = cnt (Event.getconn p i) c.trace
        ∧ cnt (Event.putconn p i) c1.trace = cnt (Event.putconn p i) c.trace)
    ∧ (∀ s ps, cnt (Event.execSql s ps) c1.trace
        = cnt (Event.execSql s ps) c.trace) := by
  unfold acquire_and_lease at h
  split at h
  next e2 c2 heq =>
    have H := gcp_counts w stg now heq
    injection h with h1 h2
    subst h2
    obtain ⟨H1, H2, H3, H4, H5, H6, H7, H8⟩ := H
    exact ⟨by omega, by omega, by omega, by omega, by omega, by omega, H7, H8⟩
  next pid c2 heq =>
    split at h
    next e2 c3 heq2 =>
      have H := gcp_counts w stg now heq
      have T := pool_getconn_err w pid heq2
      injection h with h1 h2
      subst h2
      obtain ⟨H1, H2, H3, H4, H5, H6, H7, H8⟩ := H
      rw [T]
      simp only [cnt_append, cnt_single, cnt_cons, cnt_nil]
      refine ⟨by simp; omega, by simp; omega, by simp; omega, by simp; omega,
        by simp; omega, by simp; omega, fun p i => ⟨?_, ?_⟩, fun s ps => ?_⟩
      · have := (H7 p i).1; simp at this ⊢; omega
      · have := (H7 p i).2; simp at this ⊢; omega
      · have := H8 s ps; simp at this ⊢; omega
    next cid c3 heq2 =>
      injection h with h1 h2
      exact absurd h1 (by simp)

/-- A successful pool-acquire + lease: one endpoint resolution, one lease
attempt, one `getconn` event for the leased pair; at most one token
issuance and pool build; no probe, reset, release or SQL. -/
theorem aal_ok (w : World) (stg : Settings) (now : Nat) {c : Ctx} {pc : Nat × Nat}
    {c1 : Ctx} (h : acquire_and_lease w stg now c = (Except.ok pc, c1)) :
    cnt Event.resolveEndpoint c1.trace = cnt Event.resolveEndpoint c.trace + 1
    ∧ cnt Event.issueToken c1.trace ≤ cnt Event.issueToken c.trace + 1
    ∧ cnt Event.buildAttempt c1.trace ≤ cnt Event.buildAttempt c.trace + 1
    ∧ cnt Event.leaseAttempt c1.trace = cnt Event.leaseAttempt c.trace + 1
    ∧ cnt Event.probe c1.trace = cnt Event.probe c.trace
    ∧ cnt Event.reset c1.trace = cnt Event.reset c.trace
    ∧ (∀ p i, cnt (Event.getconn p i) c1.trace
          = cnt (Event.getconn p i) c.trace
            + cnt (Event.getconn p i) [Event.getconn pc.1 pc.2]
        ∧ cnt (Event.putconn p i) c1.trace = cnt (Event.putconn p i) c.trace)
    ∧ (∀ s ps, cnt (Event.execSql s ps) c1.trace
        = cnt (Event.execSql s ps) c.trace) := by
  unfold acquire_and_lease at h
  split at h
  next e2 c2 heq =>
    injection h with h1 h2
    exact absurd h1 (by simp)
  next pid c2 heq =>
    split at h
    next e2 c3 heq2 =>
      injection h with h1 h2
      exact absurd h1 (by simp)
    next cid c3 heq2 =>
      have H := gcp_counts w stg now heq
      have T := pool_getconn_ok w pid heq2
      injection h with h1 h2
      subst h2
      injection h1 with h1
      subst h1
      obtain ⟨H1, H2, H3, H4, H5, H6, H7, H8⟩ := H
      rw [T]
      simp only [cnt_append, cnt_single, cnt_cons, cnt_nil]
      refine ⟨by simp; omega, by simp; omega, by simp; omega, by simp; omega,
        by simp; omega, by simp; omega, fun p i => ⟨?_, ?_⟩, fun s ps => ?_⟩
      · have := (H7 p i).1; simp at this ⊢; omega
      · have := (H7 p i).2; simp at this ⊢; omega
      · have := H8 s ps; simp at this ⊢; omega

/-- A failed first attempt: lease balance is preserved (a connection leased
before a failing probe is returned by the `finally` clause), no reset
happens, and at most one probe, build, lease attempt and token issuance
occur. -/
theorem fa_err (w : World) (stg : Settings) (now : Nat) {c : Ctx} {e : PyErr}
    {c1 : Ctx} (h : first_attempt w stg now c = (Except.error e, c1)) :
    cnt Event.resolveEndpoint c1.trace = cnt Event.resolveEndpoint c.trace + 1
    ∧ cnt Event.issueToken c1.trace ≤ cnt Event.issueToken c.trace + 1
    ∧ cnt Event.buildAttempt c1.trace ≤ cnt Event.buildAttempt c.trace + 1
    ∧ cnt Event.leaseAttempt c1.trace ≤ cnt Event.leaseAttempt c.trace + 1
    ∧ cnt Event.probe c1.trace ≤ cnt Event.probe c.trace + 1
    ∧ cnt Event.reset c1.trace = cnt Event.reset c.trace
    ∧ (∀ p i, cnt (Event.getconn p i) c1.trace + cnt (Event.putconn p i) c.trace
        = cnt (Event.putconn p i) c1.trace + cnt (Event.getconn p i) c.trace)
    ∧ (∀ s ps, cnt (Event.execSql s ps) c1.trace
        = cnt (Event.execSql s ps) c.trace) := by
  unfold first_attempt at h
  split at h
  next e2 c2 heq =>
    injection h with h1 h2
    subst h2
    obtain ⟨H1, H2, H3, H4, H5, H6, H7, H8⟩ := aal_err w stg now heq
    refine ⟨by omega, by omega, by omega, by omega, by omega, by omega,
      fun p i => ?_, H8⟩
    have := (H7 p i).1
    have := (H7 p i).2
    omega
  next pc c2 heq =>
    split at h
    next e2 c3 heq2 =>
      have T : (probe_conn w c2).2.trace = c2.trace ++ [Event.probe] := rfl
      rw [heq2] at T
      injection h with h1 h2
      subst h2
      obtain ⟨H1, H2, H3, H4, H5, H6, H7, H8⟩ := aal_ok w stg now heq
      rw [pool_putconn_trace, T]
      simp only [cnt_append, cnt_single, cnt_cons, cnt_nil]
      refine ⟨by simp; omega, by simp; omega, by simp; omega, by simp; omega,
        by simp; omega, by simp; omega, fun p i => ?_, fun s ps => ?_⟩
      · have h7a := (H7 p i).1
        have h7b := (H7 p i).2
        simp at h7a h7b ⊢
        omega
      · have := H8 s ps; simp; omega
    next u c3 heq2 =>
      injection h with h1 h2
      exact absurd h1 (by simp)

/-- A successful first attempt: the probe ran once, exactly one lease is
outstanding (the yielded connection), and no reset happened. -/
theorem fa_ok (w : World) (stg : Settings) (now : Nat) {c : Ctx} {pc : Nat × Nat}
    {c1 : Ctx} (h : first_attempt w stg now c = (Except.ok pc, c1)) :
    cnt Event.resolveEndpoint c1.trace = cnt Event.resolveEndpoint c.trace + 1
    ∧ cnt Event.issueToken c1.trace ≤ cnt Event.issueToken c.trace + 1
    ∧ cnt Event.buildAttempt c1.trace ≤ cnt Event.buildAttempt c.trace + 1
    ∧ cnt Event.leaseAttempt c1.trace = cnt Event.leaseAttempt c.trace + 1
    ∧ cnt Event.probe c1.trace = cnt Event.probe c.trace + 1
    ∧ cnt Event.reset c1.trace = cnt Event.reset c.trace
    ∧ (∀ p i, cnt (Event.getconn p i) c1.trace
          = cnt (Event.getconn p i) c.trace
            + cnt (Event.getconn p i) [Event.getconn pc.1 pc.2]
        ∧ cnt (Event.putconn p i) c1.trace = cnt (Event.putconn p i) c.trace)
    ∧ (∀ s ps, cnt (Event.execSql s ps) c1.trace
        = cnt (Event.execSql s ps) c.trace) := by
  unfold first_attempt at h
  split at h
  next e2 c2 heq =>
    injection h with h1 h2
    exact absurd h1 (by simp)
  next pc2 c2 heq =>
    split at h
    next e2 c3 heq2 =>
      injection h with h1 h2
      exact absurd h1 (by simp)
    next u c3 heq2 =>
      have T : (probe_conn w c2).2.trace = c2.trace ++ [Event.probe] := rfl
      rw [heq2] at T
      injection h with h1 h2
      subst h2
      injection h1 with h1
      subst h1
      obtain ⟨H1, H2, H3, H4, H5, H6, H7, H8⟩ := aal_ok w stg now heq
      rw [T]
      simp only [cnt_append, cnt_single, cnt_cons, cnt_nil]
      refine ⟨by simp; omega, by simp; omega, by simp; omega, by simp; omega,
        by simp; omega, by simp; omega, fun p i => ⟨?_, ?_⟩, fun s ps => ?_⟩
      · have := (H7 p i).1; simp at this ⊢; omega
      · have := (H7 p i).2; simp at this ⊢; omega
      · have := H8 s ps; simp at this ⊢; omega

/-- The recovery path: exactly one reset, no liveness probe at all, one
endpoint resolution, at most one token issuance, one pool-construction
attempt and one lease attempt; lease balance is preserved on every exit. -/
theorem retry_counts {α : Type} (w : World) (stg : Settings) (now : Nat)
    (bp : Bool) {body : Nat → Ctx → Except PyErr α × Ctx} {c : Ctx}
    {r : Except PyErr α} {c1 : Ctx}
    (hbody : BodyTame body)
    (h : retry_path w stg now bp body c = (r, c1)) :
    cnt Event.reset c1.trace = cnt Event.reset c.trace + 1
    ∧ cnt Event.probe c1.trace = cnt Event.probe c.trace
    ∧ cnt Event.resolveEndpoint c1.trace = cnt Event.resolveEndpoint c.trace + 1
    ∧ cnt Event.issueToken c1.trace ≤ cnt Event.issueToken c.trace + 1
    ∧ cnt Event.buildAttempt c1.trace ≤ cnt Event.buildAttempt c.trace + 1
    ∧ cnt Event.leaseAttempt c1.trace ≤ cnt Event.leaseAttempt c.trace + 1
    ∧ (∀ p i, cnt (Event.getconn p i) c1.trace + cnt (Event.putconn p i) c.trace
        = cnt (Event.putconn p i) c1.trace + cnt (Event.getconn p i) c.trace) := by
  unfold retry_path at h
  dsimp only at h
  split at h
  next e2 c2 heq =>
    have A := aal_err w stg now heq
    rw [reset_pool_trace] at A
    obtain ⟨A1, A2, A3, A4, A5, A6, A7, A8⟩ := A
    split at h <;>
    · injection h with h1 h2
      subst h2
      simp at A1 A2 A3 A4 A5 A6 ⊢
      refine ⟨by omega, by omega, by omega, by omega, by omega, by omega,
        fun p i => ?_⟩
      have h7a := (A7 p i).1
      have h7b := (A7 p i).2
      simp at h7a h7b
      omega
  next pc c2 heq =>
    have A := aal_ok w stg now heq
    rw [reset_pool_trace] at A
    obtain ⟨A1, A2, A3, A4, A5, A6, A7, A8⟩ := A
    simp at A1 A2 A3 A4 A5 A6
    split at h
    · -- bodyPending = true: the caller's block runs on the retry lease
      split at h
      next a cb heqb =>
        have B := hbody pc.2 c2 _ _ heqb
        obtain ⟨B7, B6, B5, B4, B3, B2, B1⟩ := B
        injection h with h1 h2
        subst h2
        rw [pool_putconn_trace]
        simp at B1 B2 B3 B4 B5 B6 ⊢
        refine ⟨by omega, by omega, by omega, by omega, by omega, by omega,
          fun p i => ?_⟩
        have h7a := (A7 p i).1
        have h7b := (A7 p i).2
        have hb7a := (B7 p i).1
        have hb7b := (B7 p i).2
        simp at h7a h7b hb7a hb7b
        omega
      next e2 cb heqb =>
        have B := hbody pc.2 c2 _ _ heqb
        obtain ⟨B7, B6, B5, B4, B3, B2, B1⟩ := B
        split at h <;>
        · injection h with h1 h2
          subst h2
          rw [pool_putconn_trace]
          simp at B1 B2 B3 B4 B5 B6 ⊢
          refine ⟨by omega, by omega, by omega, by omega, by omega, by omega,
            fun p i => ?_⟩
          have h7a := (A7 p i).1
          have h7b := (A7 p i).2
          have hb7a := (B7 p i).1
          have hb7b := (B7 p i).2
          simp at h7a h7b hb7a hb7b
          omega
    · -- bodyPending = false: second yield, RuntimeError, lease released on close
      injection h with h1 h2
      subst h2
      rw [pool_putconn_trace]
      simp
      refine ⟨by omega, by omega, by omega, by omega, by omega, by omega,
        fun p i => ?_⟩
      have h7a := (A7 p i).1
      have h7b := (A7 p i).2
      simp at h7a h7b
      omega

/-- When the retry's pool-acquire or lease fails with `OperationalError`,
`get_connection` raises `DatabaseConnectionError(detail=str(retry_error))`. -/
theorem retry_res_op {α : Type} (w : World) (stg : Settings) (now : Nat)
    (bp : Bool) (body : Nat → Ctx → Except PyErr α × Ctx) {c : Ctx}
    {e2 : PyErr} {c2 : Ctx}
    (haal : acquire_and_lease w stg now (reset_pool c) = (Except.error e2, c2))
    (hop : e2.isOperational = true) :
    retry_path w stg now bp body c = (Except.error (PyErr.dbConnErr e2.msg), c2) := by
  unfold retry_path
  dsimp only
  rw [haal]
  simp [hop]

/-- When the retry's pool-acquire or lease fails with anything other than
`OperationalError`, that exception propagates unchanged. -/
theorem retry_res_raw {α : Type} (w : World) (stg : Settings) (now : Nat)
    (bp : Bool) (body : Nat → Ctx → Except PyErr α × Ctx) {c : Ctx}
    {e2 : PyErr} {c2 : Ctx}
    (haal : acquire_and_lease w stg now (reset_pool c) = (Except.error e2, c2))
    (hop : e2.isOperational = false) :
    retry_path w stg now bp body c = (Except.error e2, c2) := by
  unfold retry_path
  dsimp only
  rw [haal]
  simp [hop]

/-- When the retry acquires and leases successfully but the caller's block
already ran, the generator's second yield makes the contextmanager protocol
raise `RuntimeError`; the fresh lease is released on generator close. -/
theorem retry_second_yield {α : Type} (w : World) (stg : Settings) (now : Nat)
    (body : Nat → Ctx → Except PyErr α × Ctx) {c : Ctx}
    {pc : Nat × Nat} {c2 : Ctx}
    (haal : acquire_and_lease w stg now (reset_pool c) = (Except.ok pc, c2)) :
    retry_path w stg now false body c
      = (Except.error (PyErr.runtimeGenErr "generator did not stop after throw"),
         pool_putconn pc.1 pc.2 c2) := by
  unfold retry_path
  dsimp only
  rw [haal]
  simp

/-- A pre-yield `OperationalError` in the first attempt sends
`get_connection` into the recovery path with the caller's block pending. -/
theorem wc_retry_eq {α : Type} (w : World) (stg : Settings) (now : Nat)
    (body : Nat → Ctx → Except PyErr α × Ctx) {c : Ctx} {e : PyErr} {c1 : Ctx}
    (hfa : first_attempt w stg now c = (Except.error e, c1))
    (hop : e.isOperational = true) :
    with_connection w stg now body c = retry_path w stg now true body c1 := by
  unfold with_connection
  rw [hfa]
  simp [hop]

/-- A pre-yield exception of any other class propagates unchanged. -/
theorem wc_fa_raw {α : Type} (w : World) (stg : Settings) (now : Nat)
    (body : Nat → Ctx → Except PyErr α × Ctx) {c : Ctx} {e : PyErr} {c1 : Ctx}
    (hfa : first_attempt w stg now c = (Except.error e, c1))
    (hop : e.isOperational = false) :
    with_connection w stg now body c = (Except.error e, c1) := by
  unfold with_connection
  rw [hfa]
  simp [hop]

/-- Normal completion: the caller's block runs once on the probed lease and
the connection is returned. -/
theorem wc_body_ok {α : Type} (w : World) (stg : Settings) (now : Nat)
    (body : Nat → Ctx → Except PyErr α × Ctx) {c : Ctx} {pc : Nat × Nat}
    {c1 : Ctx} {a : α} {c2 : Ctx}
    (hfa : first_attempt w stg now c = (Except.ok pc, c1))
    (hb : body pc.2 c1 = (Except.ok a, c2)) :
    with_connection w stg now body c = (Except.ok a, pool_putconn pc.1 pc.2 c2) := by
  unfold with_connection
  rw [hfa]
  dsimp only
  rw [hb]

/-- An `OperationalError` raised by the caller's block is thrown into the
generator, the lease is returned, and the recovery path runs with the
caller's block no longer pending. -/
theorem wc_body_err_op {α : Type} (w : World) (stg : Settings) (now : Nat)
    (body : Nat → Ctx → Except PyErr α × Ctx) {c : Ctx} {pc : Nat × Nat}
    {c1 : Ctx} {e : PyErr} {c2 : Ctx}
    (hfa : first_attempt w stg now c = (Except.ok pc, c1))
    (hb : body pc.2 c1 = (Except.error e, c2))
    (hop : e.isOperational = true) :
    with_connection w stg now body c
      = retry_path w stg now false body (pool_putconn pc.1 pc.2 c2) := by
  unfold with_connection
  rw [hfa]
  dsimp only
  rw [hb]
  simp [hop]

/-- Any other exception raised by the caller's block propagates unchanged
after the lease is returned. -/
theorem wc_body_err_raw {α : Type} (w : World) (stg : Settings) (now : Nat)
    (body : Nat → Ctx → Except PyErr α × Ctx) {c : Ctx} {pc : Nat × Nat}
    {c1 : Ctx} {e : PyErr} {c2 : Ctx}
    (hfa : first_attempt w stg now c = (Except.ok pc, c1))
    (hb : body pc.2 c1 = (Except.error e, c2))
    (hop : e.isOperational = false) :
    with_connection w stg now body c = (Except.error e, pool_putconn pc.1 pc.2 c2) := by
  unfold with_connection
  rw [hfa]
  dsimp only
  rw [hb]
  simp [hop]

/-- The recovery path never surfaces a raw `OperationalError`: it maps the
operational class to `DatabaseConnectionError` and everything else is
already non-operational. -/
theorem retry_err_not_op {α : Type} (w : World) (stg : Settings) (now : Nat)
    (bp : Bool) {body : Nat → Ctx → Except PyErr α × Ctx} {c : Ctx}
    {e : PyErr} {c1 : Ctx}
    (h : retry_path w stg now bp body c = (Except.error e, c1)) :
    e.isOperational = false := by
  unfold retry_path at h
  dsimp only at h
  split at h
  next e2 c2 heq =>
    split at h
    next hop =>
      injection h with h1 h2
      injection h1 with h1
      subst h1
      rfl
    next hop =>
      injection h with h1 h2
      injection h1 with h1
      subst h1
      simpa using hop
  next pc c2 heq =>
    split at h
    · split at h
      next a cb heqb =>
        injection h with h1 h2
        exact absurd h1 (by simp)
      next e2 cb heqb =>
        split at h
        next hop =>
          injection h with h1 h2
          injection h1 with h1
          subst h1
          rfl
        next hop =>
          injection h with h1 h2
          injection h1 with h1
          subst h1
          simpa using hop
    · injection h with h1 h2
      injection h1 with h1
      subst h1
      rfl

/-- `with_connection` never surfaces a raw `psycopg2.OperationalError` to
its caller: every operational failure is either recovered or re-raised as
`DatabaseConnectionError` (or turned into the protocol RuntimeError). -/
theorem wc_err_not_op {α : Type} (w : World) (stg : Settings) (now : Nat)
    {body : Nat → Ctx → Except PyErr α × Ctx} {c : Ctx}
    {e : PyErr} {c1 : Ctx}
    (h : with_connection w stg now body c = (Except.error e, c1)) :
    e.isOperational = false := by
  unfold with_connection at h
  dsimp only at h
  split at h
  next e2 c2 heq =>
    split at h
    next hop => exact retry_err_not_op w stg now true h
    next hop =>
      injection h with h1 h2
      injection h1 with h1
      subst h1
      simpa using hop
  next pc c2 heq =>
    split at h
    next a cb heqb =>
      injection h with h1 h2
      exact absurd h1 (by simp)
    next e2 cb heqb =>
      split at h
      next hop => exact retry_err_not_op w stg now false h
      next hop =>
        injection h with h1 h2
        injection h1 with h1
        subst h1
        simpa using hop

/-- The pure caller blocks are tame. -/
theorem pureBody_tame {α : Type} (f : Nat → Except PyErr α) :
    BodyTame (pureBody f) := by
  intro cid c r c1 h
  injection h with h1 h2
  subst h2
  exact ⟨fun p i => ⟨rfl, rfl⟩, rfl, rfl, rfl, rfl, rfl, rfl⟩

/-- The `execute_query` cursor block is tame: it only appends `execSql`. -/
theorem cursor_body_tame (w : World) (schema sql : String) (params : List PyVal) :
    BodyTame (cursor_body w schema sql params) := by
  intro cid c r c1 h
  unfold cursor_body at h
  dsimp only at h
  split at h <;>
  · injection h with h1 h2
    subst h2
    simp

/-- Per call of `with_connection`: at most one reset and one probe, at most
two endpoint resolutions, token issuances, pool-construction attempts and
lease attempts — and, for every pool/connection pair, leases and releases
change in lockstep (scoped acquisition on every exit path). -/
theorem wc_counts {α : Type} (w : World) (stg : Settings) (now : Nat)
    {body : Nat → Ctx → Except PyErr α × Ctx} {c : Ctx}
    {r : Except PyErr α} {c1 : Ctx}
    (hbody : BodyTame body)
    (h : with_connection w stg now body c = (r, c1)) :
    cnt Event.reset c1.trace ≤ cnt Event.reset c.trace + 1
    ∧ cnt Event.probe c1.trace ≤ cnt Event.probe c.trace + 1
    ∧ cnt Event.resolveEndpoint c1.trace ≤ cnt Event.resolveEndpoint c.trace + 2
    ∧ cnt Event.issueToken c1.trace ≤ cnt Event.issueToken c.trace + 2
    ∧ cnt Event.buildAttempt c1.trace ≤ cnt Event.buildAttempt c.trace + 2
    ∧ cnt Event.leaseAttempt c1.trace ≤ cnt Event.leaseAttempt c.trace + 2
    ∧ (∀ p i, cnt (Event.getconn p i) c1.trace + cnt (Event.putconn p i) c.trace
        = cnt (Event.putconn p i) c1.trace + cnt (Event.getconn p i) c.trace) := by
  rcases hfa : first_attempt w stg now c with ⟨rf, cf⟩
  rcases rf with e | pc
  · by_cases hop : e.isOperational = true
    · have heq := wc_retry_eq w stg now body hfa hop
      rw [heq] at h
      obtain ⟨R1, R2, R3, R4, R5, R6, R7⟩ := retry_counts w stg now true hbody h
      obtain ⟨F1, F2, F3, F4, F5, F6, F7, F8⟩ := fa_err w stg now hfa
      refine ⟨by omega, by omega, by omega, by omega, by omega, by omega,
        fun p i => ?_⟩
      have hr := R7 p i
      have hf := F7 p i
      omega
    · have hop2 : e.isOperational = false := by simpa using hop
      have heq := wc_fa_raw w stg now body hfa hop2
      rw [heq] at h
      injection h with h1 h2
      subst h2
      obtain ⟨F1, F2, F3, F4, F5, F6, F7, F8⟩ := fa_err w stg now hfa
      exact ⟨by omega, by omega, by omega, by omega, by omega, by omega,
        fun p i => F7 p i⟩
  · rcases hb : body pc.2 cf with ⟨rb, cb⟩
    obtain ⟨B7, Brst, Bprb, Bbld, Blse, Brsv, Biss⟩ := hbody pc.2 cf _ _ hb
    obtain ⟨F1, F2, F3, F4, F5, F6, F7, F8⟩ := fa_ok w stg now hfa
    rcases rb with e | a
    · by_cases hop : e.isOperational = true
      · have heq := wc_body_err_op w stg now body hfa hb hop
        rw [heq] at h
        obtain ⟨R1, R2, R3, R4, R5, R6, R7⟩ := retry_counts w stg now false hbody h
        rw [pool_putconn_trace] at R1 R2 R3 R4 R5 R6
        simp at R1 R2 R3 R4 R5 R6
        refine ⟨by omega, by omega, by omega, by omega, by omega, by omega,
          fun p i => ?_⟩
        have hr := R7 p i
        rw [pool_putconn_trace] at hr
        have hf := (F7 p i).1
        have hf2 := (F7 p i).2
        have hbb := (B7 p i).1
        have hbb2 := (B7 p i).2
        simp at hr hf ⊢
        omega
      · have hop2 : e.isOperational = false := by simpa using hop
        have heq := wc_body_err_raw w stg now body hfa hb hop2
        rw [heq] at h
        injection h with h1 h2
        subst h2
        rw [pool_putconn_trace]
        simp
        refine ⟨by omega, by omega, by omega, by omega, by omega, by omega,
          fun p i => ?_⟩
        have hf := (F7 p i).1
        have hf2 := (F7 p i).2
        have hbb := (B7 p i).1
        have hbb2 := (B7 p i).2
        simp at hf ⊢
        omega
    · have heq := wc_body_ok w stg now body hfa hb
      rw [heq] at h
      injection h with h1 h2
      subst h2
      rw [pool_putconn_trace]
      simp
      refine ⟨by omega, by omega, by omega, by omega, by omega, by omega,
        fun p i => ?_⟩
      have hf := (F7 p i).1
      have hf2 := (F7 p i).2
      have hbb := (B7 p i).1
      have hbb2 := (B7 p i).2
      simp at hf ⊢
      omega

/-- Persistent connectivity failure: first attempt and retry both fail with
`OperationalError` — the caller sees `DatabaseConnectionError` built from
the retry error. -/
theorem wc_persistent_dce {α : Type} (w : World) (stg : Settings) (now : Nat)
    (body : Nat → Ctx → Except PyErr α × Ctx) {c : Ctx} {e : PyErr} {c1 : Ctx}
    {e2 : PyErr} {c2 : Ctx}
    (hfa : first_attempt w stg now c = (Except.error e, c1))
    (hop : e.isOperational = true)
    (haal : acquire_and_lease w stg now (reset_pool c1) = (Except.error e2, c2))
    (hop2 : e2.isOperational = true) :
    with_connection w stg now body c = (Except.error (PyErr.dbConnErr e2.msg), c2) := by
  rw [wc_retry_eq w stg now body hfa hop]
  exact retry_res_op w stg now true body haal hop2

theorem cnt_pos_iff_mem (e : Event) (tr : List Event) :
    0 < cnt e tr ↔ e ∈ tr := by
  induction tr with
  | nil => simp [cnt]
  | cons x l ih =>
    rw [cnt_cons]
    by_cases hx : x = e
    · subst hx
      simp
    · rw [if_neg hx, Nat.add_zero, ih]
      constructor
      · intro hm
        exact List.mem_cons_of_mem _ hm
      · intro hm
        rcases List.mem_cons.mp hm with h1 | h1
        · exact absurd h1.symm hx
        · exact h1

/-- Equal `execSql` counts transport the fixed-SQL-text property. -/
theorem sqlTexts_of_cnt_eq {s0 : String} {tr0 tr1 : List Event}
    (hcnt : ∀ s ps, cnt (Event.execSql s ps) tr1 = cnt (Event.execSql s ps) tr0)
    (hs : SqlTextsAre s0 tr0) : SqlTextsAre s0 tr1 := by
  intro s ps hmem
  apply hs s ps
  rw [← cnt_pos_iff_mem] at hmem ⊢
  rw [← hcnt s ps]
  exact hmem

/-- The recovery path preserves the fixed-SQL-text property whenever the
caller's block does. -/
theorem retry_sqlTexts {α : Type} (w : World) (stg : Settings) (now : Nat)
    (bp : Bool) {body : Nat → Ctx → Except PyErr α × Ctx} {c : Ctx}
    {r : Except PyErr α} {c1 : Ctx} {s0 : String}
    (hbodyS : ∀ cid cx rx cx1, body cid cx = (rx, cx1) →
      SqlTextsAre s0 cx.trace → SqlTextsAre s0 cx1.trace)
    (h : retry_path w stg now bp body c = (r, c1))
    (hs : SqlTextsAre s0 c.trace) : SqlTextsAre s0 c1.trace := by
  have hs0 : SqlTextsAre s0 (reset_pool c).trace := by
    rw [reset_pool_trace]
    intro s ps hmem
    simp at hmem
    exact hs s ps hmem
  unfold retry_path at h
  dsimp only at h
  split at h
  next e2 c2 heq =>
    have A8 := (aal_err w stg now heq).2.2.2.2.2.2.2
    split at h <;>
    · injection h with h1 h2
      subst h2
      exact sqlTexts_of_cnt_eq A8 hs0
  next pc c2 heq =>
    have A8 := (aal_ok w stg now heq).2.2.2.2.2.2.2
    have hs2 : SqlTextsAre s0 c2.trace := sqlTexts_of_cnt_eq A8 hs0
    split at h
    · split at h
      next a cb heqb =>
        have hs3 := hbodyS pc.2 c2 _ _ heqb hs2
        injection h with h1 h2
        subst h2
        rw [pool_putconn_trace]
        intro s ps hmem
        simp at hmem
        exact hs3 s ps hmem
      next e2 cb heqb =>
        have hs3 := hbodyS pc.2 c2 _ _ heqb hs2
        split at h <;>
        · injection h with h1 h2
          subst h2
          rw [pool_putconn_trace]
          intro s ps hmem
          simp at hmem
          exact hs3 s ps hmem
    · injection h with h1 h2
      subst h2
      rw [pool_putconn_trace]
      intro s ps hmem
      simp at hmem
      exact hs2 s ps hmem

/-- `with_connection` preserves the fixed-SQL-text property whenever the
caller's block does. -/
theorem wc_sqlTexts {α : Type} (w : World) (stg : Settings) (now : Nat)
    {body : Nat → Ctx → Except PyErr α × Ctx} {c : Ctx}
    {r : Except PyErr α} {c1 : Ctx} {s0 : String}
    (hbodyS : ∀ cid cx rx cx1, body cid cx = (rx, cx1) →
      SqlTextsAre s0 cx.trace → SqlTextsAre s0 cx1.trace)
    (h : with_connection w stg now body c = (r, c1))
    (hs : SqlTextsAre s0 c.trace) : SqlTextsAre s0 c1.trace := by
  rcases hfa : first_attempt w stg now c with ⟨rf, cf⟩
  rcases rf with e | pc
  · have F8 := (fa_err w stg now hfa).2.2.2.2.2.2.2
    have hsf : SqlTextsAre s0 cf.trace := sqlTexts_of_cnt_eq F8 hs
    by_cases hop : e.isOperational = true
    · rw [wc_retry_eq w stg now body hfa hop] at h
      exact retry_sqlTexts w stg now true hbodyS h hsf
    · have hop2 : e.isOperational = false := by simpa using hop
      rw [wc_fa_raw w stg now body hfa hop2] at h
      injection h with h1 h2
      subst h2
      exact hsf
  · have F8 := (fa_ok w stg now hfa).2.2.2.2.2.2.2
    have hsf : SqlTextsAre s0 cf.trace := sqlTexts_of_cnt_eq F8 hs
    rcases hb : body pc.2 cf with ⟨rb, cb⟩
    have hsb := hbodyS pc.2 cf _ _ hb hsf
    have hput : SqlTextsAre s0 (pool_putconn pc.1 pc.2 cb).trace := by
      rw [pool_putconn_trace]
      intro s ps hmem
      simp at hmem
      exact hsb s ps hmem
    rcases rb with e | a
    · by_cases hop : e.isOperational = true
      · rw [wc_body_err_op w stg now body hfa hb hop] at h
        exact retry_sqlTexts w stg now false hbodyS h hput
      · have hop2 : e.isOperational = false := by simpa using hop
        rw [wc_body_err_raw w stg now body hfa hb hop2] at h
        injection h with h1 h2
        subst h2
        exact hput
    · rw [wc_body_ok w stg now body hfa hb] at h
      injection h with h1 h2
      subst h2
      exact hput

/-- The cursor block only ever hands `formatSchema sql schema` to the
driver. -/
theorem cursor_body_sqlTexts (w : World) (schema sql : String) (params : List PyVal) :
    ∀ cid cx rx cx1, cursor_body w schema sql params cid cx = (rx, cx1) →
      SqlTextsAre (formatSchema sql schema) cx.trace →
      SqlTextsAre (formatSchema sql schema) cx1.trace := by
  intro cid cx rx cx1 h hs
  unfold cursor_body at h
  dsimp only at h
  split at h <;>
  · injection h with h1 h2
    subst h2
    intro s ps hmem
    simp at hmem
    rcases hmem with hmem | hmem
    · exact hs s ps hmem
    · exact hmem.1

/-- The error-dispatch of `execute_query` leaves the context untouched. -/
theorem execute_query_ctx (w : World) (stg : Settings) (now : Nat)
    (sql : String) (params : List PyVal) (c : Ctx) :
    (execute_query w stg now sql params c).2
      = (with_connection w stg now (cursor_body w stg.lakebaseSchema sql params) c).2 := by
  unfold execute_query
  rcases with_connection w stg now (cursor_body w stg.lakebaseSchema sql params) c with ⟨r0, c0⟩
  rcases r0 with e | v
  · dsimp only
    split
    · rfl
    · split
      · rfl
      · split <;> rfl
  · rfl

/-- The value computed by the cursor block is determined by the driver's
answer to the formatted SQL with the bind parameters: one dict per row,
zipping column names with the row's values. -/
theorem cursor_body_val (w : World) (schema sql : String) (params : List PyVal)
    (cid : Nat) (c : Ctx) :
    (cursor_body w schema sql params cid c).1
      = match w.query (formatSchema sql schema) params with
        | Except.error e => Except.error e
        | Except.ok cr => Except.ok (cr.2.map (fun row => rowDict cr.1 row)) := by
  unfold cursor_body
  rcases hq : w.query (formatSchema sql schema) params with e | cr <;> simp [hq]

/-- An `ok` outcome of the recovery path is a value the caller's block
returned. -/
theorem retry_ok_val {α : Type} (w : World) (stg : Settings) (now : Nat)
    (bp : Bool) {body : Nat → Ctx → Except PyErr α × Ctx} {c : Ctx}
    {a : α} {c1 : Ctx} {v0 : Except PyErr α}
    (hconst : ∀ cid cx, (body cid cx).1 = v0)
    (h : retry_path w stg now bp body c = (Except.ok a, c1)) :
    v0 = Except.ok a := by
  unfold retry_path at h
  dsimp only at h
  split at h
  next e2 c2 heq =>
    split at h <;>
    · injection h with h1 h2
      exact absurd h1 (by simp)
  next pc c2 heq =>
    split at h
    · split at h
      next a2 cb heqb =>
        injection h with h1 h2
        injection h1 with h1
        subst h1
        have hv := hconst pc.2 c2
        rw [heqb] at hv
        simp at hv
        exact hv.symm
      next e2 cb heqb =>
        split at h <;>
        · injection h with h1 h2
          exact absurd h1 (by simp)
    · injection h with h1 h2
      exact absurd h1 (by simp)

/-- An `ok` outcome of `with_connection` is a value the caller's block
returned (the block's result is assumed deterministic, as for the cursor
block whose answer is fixed by the driver). -/
theorem wc_ok_val {α : Type} (w : World) (stg : Settings) (now : Nat)
    {body : Nat → Ctx → Except PyErr α × Ctx} {c : Ctx}
    {a : α} {c1 : Ctx} {v0 : Except PyErr α}
    (hconst : ∀ cid cx, (body cid cx).1 = v0)
    (h : with_connection w stg now body c = (Except.ok a, c1)) :
    v0 = Except.ok a := by
  unfold with_connection at h
  dsimp only at h
  split at h
  next e2 c2 heq =>
    split at h
    next hop => exact retry_ok_val w stg now true hconst h
    next hop =>
      injection h with h1 h2
      exact absurd h1 (by simp)
  next pc c2 heq =>
    split at h
    next a2 cb heqb =>
      injection h with h1 h2
      injection h1 with h1
      subst h1
      have hv := hconst pc.2 c2
      rw [heqb] at hv
      simp at hv
      exact hv.symm
    next e2 cb heqb =>
      split at h
      next hop => exact retry_ok_val w stg now false hconst h
      next hop =>
        injection h with h1 h2
        exact absurd h1 (by simp)

/-- A `ProgrammingError` is a psycopg2 error, so `isPsycopg2 = false`
forces `isProgramming = false`. -/
theorem not_prog_of_not_pg {e : PyErr} (hpg : e.isPsycopg2 = false) :
    e.isProgramming = false := by
  cases e <;> simp_all [PyErr.isProgramming, PyErr.isPsycopg2]

/-- The except-clause chain of `execute_query`, conditioned on what the
`with` block produced: `DatabaseConnectionError` is re-raised unchanged,
every psycopg2 error becomes `DatabaseQueryError(str(e))`, anything else
propagates as-is. -/
theorem execute_query_dispatch (w : World) (stg : Settings) (now : Nat)
    (sql : String) (params : List PyVal) (c : Ctx)
    {r0 : Except PyErr (List (List (String × PyVal)))} {c0 : Ctx}
    (hwc : with_connection w stg now (cursor_body w stg.lakebaseSchema sql params) c
      = (r0, c0)) :
    (∀ v, r0 = Except.ok v →
      execute_query w stg now sql params c = (Except.ok v, c0))
    ∧ (∀ e, r0 = Except.error e → e.isDbConn = true →
        execute_query w stg now sql params c = (Except.error e, c0))
    ∧ (∀ e, r0 = Except.error e → e.isDbConn = false → e.isPsycopg2 = true →
        execute_query w stg now sql params c
          = (Except.error (PyErr.dbQueryErr e.msg), c0))
    ∧ (∀ e, r0 = Except.error e → e.isDbConn = false → e.isPsycopg2 = false →
        execute_query w stg now sql params c = (Except.error e, c0)) := by
  refine ⟨?_, ?_, ?_, ?_⟩
  · intro v hv
    subst hv
    unfold execute_query
    rw [hwc]
  · intro e he hdb
    subst he
    unfold execute_query
    rw [hwc]
    simp [hdb]
  · intro e he hdb hpg
    subst he
    unfold execute_query
    rw [hwc]
    by_cases hprog : e.isProgramming = true <;> simp [hdb, hpg, hprog]
  · intro e he hdb hpg
    subst he
    unfold execute_query
    rw [hwc]
    simp [hdb, hpg, not_prog_of_not_pg hpg]

/-- The keys of a zip form a sublist of the column list. -/
theorem zip_keys_sublist (cols : List String) (row : List PyVal) :
    ((cols.zip row).map Prod.fst).Sublist cols := by
  induction cols generalizing row with
  | nil => simp
  | cons k ks ih =>
    cases row with
    | nil => simp
    | cons v vs =>
      simp only [List.zip_cons_cons, List.map_cons]
      exact List.Sublist.cons₂ k (ih vs)

/-- Folding dict insertions over pairs whose keys are fresh and pairwise
distinct just appends the pairs in order. -/
theorem foldl_dictInsert_fresh (ps : List (String × PyVal)) :
    ∀ acc : List (String × PyVal),
      (∀ q ∈ ps, acc.any (fun p => p.1 == q.1) = false) →
      (ps.map Prod.fst).Nodup →
      ps.foldl (fun d p => dictInsert d p.1 p.2) acc = acc ++ ps := by
  induction ps with
  | nil =>
    intro acc h1 h2
    simp
  | cons q rest ih =>
    intro acc h1 h2
    simp only [List.foldl_cons]
    have hq : acc.any (fun p => p.1 == q.1) = false :=
      h1 q (List.mem_cons_self q rest)
    have hins : dictInsert acc q.1 q.2 = acc ++ [q] := by
      simp [dictInsert, hq]
    rw [hins]
    rw [List.map_cons, List.nodup_cons] at h2
    have hfresh : ∀ q2 ∈ rest, (acc ++ [q]).any (fun p => p.1 == q2.1) = false := by
      intro q2 hq2
      rw [List.any_append]
      have ha : acc.any (fun p => p.1 == q2.1) = false :=
        h1 q2 (List.mem_cons_of_mem q hq2)
      have hb : ([q].any (fun p => p.1 == q2.1)) = false := by
        simp only [List.any_cons, List.any_nil, Bool.or_false]
        have hne : q.1 ≠ q2.1 := by
          intro hcontra
          exact h2.1 (hcontra ▸ List.mem_map_of_mem Prod.fst hq2)
        simpa using hne
      rw [ha, hb]
      rfl
    rw [ih (acc ++ [q]) hfresh h2.2]
    simp

/-- With pairwise-distinct column names, `dict(zip(columns, row))` is the
zip itself: column order preserved, one entry per column/value pair. -/
theorem rowDict_eq_zip (cols : List String) (row : List PyVal)
    (h : cols.Nodup) : rowDict cols row = cols.zip row := by
  have hkeys : ((cols.zip row).map Prod.fst).Nodup :=
    List.Nodup.sublist (zip_keys_sublist cols row) h
  have := foldl_dictInsert_fresh (cols.zip row) []
    (by intro q hq; rfl) hkeys
  simpa [rowDict, dictOfPairs] using this

/-- Cache hit in `_get_fresh_token`: the cached token is returned and
nothing at all happens (no provider call, no state change). -/
theorem gft_hit (w : World) (stg : Settings) (now : Nat) (c : Ctx)
    (htok : tokenTruthy c.st.tokenCache.token = true)
    (hlt : now < c.st.tokenCache.expiresAt) :
    get_fresh_token w stg now c = (Except.ok (c.st.tokenCache.token.getD ""), c) := by
  unfold get_fresh_token
  simp [htok, hlt]

/-- Cache miss in `_get_fresh_token` with successful issuance: exactly one
provider call; the token is cached with expiry `now + refresh interval`. -/
theorem gft_miss (w : World) (stg : Settings) (now : Nat) (c : Ctx) (tok : String)
    (hmiss : (tokenTruthy c.st.tokenCache.token
      && decide (now < c.st.tokenCache.expiresAt)) = false)
    (hi : w.issueToken c.nIssue = Except.ok tok) :
    get_fresh_token w stg now c
      = (Except.ok tok,
         ⟨{ c.st with tokenCache := ⟨some tok, now + stg.tokenRefreshInterval⟩ },
          c.trace ++ [Event.issueToken]⟩) := by
  unfold get_fresh_token
  rw [hmiss]
  simp [hi]

/-- While the cached token is truthy and every call time is before the
cached expiry, `_get_fresh_token` is the identity on the context. -/
theorem run_hits (w : World) (stg : Settings) (tok : String) (exp : Nat)
    (htok : tok ≠ "") (ts : List Nat) (c : Ctx)
    (hc : c.st.tokenCache = ⟨some tok, exp⟩)
    (hts : ∀ t ∈ ts, t < exp) :
    run_token_calls w stg ts c = c := by
  induction ts with
  | nil => rfl
  | cons t ts ih =>
    have h1 : get_fresh_token w stg t c
        = (Except.ok (c.st.tokenCache.token.getD ""), c) := by
      apply gft_hit
      · rw [hc]
        show tokenTruthy (some tok) = true
        simp [tokenTruthy, htok]
      · rw [hc]
        exact hts t (List.mem_cons_self t ts)
    unfold run_token_calls
    simp only [List.foldl_cons]
    rw [h1]
    exact ih (fun t2 ht2 => hts t2 (List.mem_cons_of_mem t ht2))

/-- A sequence of `_get_fresh_token` calls starting from an empty cache,
whose later call times all precede the first call's expiry, contacts the
provider exactly once — on the first call. -/
theorem token_calls_once (w : World) (stg : Settings) (st : SvcState)
    (t0 : Nat) (rest : List Nat) (tok : String)
    (h0 : tokenTruthy st.tokenCache.token = false)
    (hi : w.issueToken 0 = Except.ok tok)
    (htok : tok ≠ "")
    (hrest : ∀ t ∈ rest, t < t0 + stg.tokenRefreshInterval) :
    (run_token_calls w stg (t0 :: rest) (initCtx st)).trace = [Event.issueToken] := by
  have hmiss : (tokenTruthy (initCtx st).st.tokenCache.token
      && decide (t0 < (initCtx st).st.tokenCache.expiresAt)) = false := by
    simp [initCtx, h0]
  have h1 := gft_miss w stg t0 (initCtx st) tok hmiss hi
  unfold run_token_calls
  simp only [List.foldl_cons]
  have h2 := run_hits w stg tok (t0 + stg.tokenRefreshInterval) htok rest
    ((get_fresh_token w stg t0 (initCtx st)).2)
    (by rw [h1]) hrest
  unfold run_token_calls at h2
  rw [h2, h1]
  simp [initCtx]

/-- With a cached pool handle and a succeeding resolution,
`_get_connection_pool` still performs one endpoint resolution, then
returns the handle unchanged with no token issuance and no state change. -/
theorem gcp_cached (w : World) (stg : Settings) (now : Nat) (st : SvcState)
    (pid : Nat) (hv : String × String)
    (hpool : st.connectionPool = some pid)
    (hres : w.resolveEndpoint 0 = Except.ok hv) :
    get_connection_pool w stg now (initCtx st)
      = (Except.ok pid, ⟨st, [Event.resolveEndpoint]⟩) := by
  unfold get_connection_pool
  have h0 : (initCtx st).nResolve = 0 := rfl
  rw [h0, hres]
  simp [initCtx, hpool]

/-- With no pool handle and an empty token cache (the state after
`reset()`), a successful build performs exactly one endpoint resolution
and one token issuance. -/
theorem gcp_fresh (w : World) (stg : Settings) (now : Nat) (st : SvcState)
    (hv : String × String) (tok : String)
    (hpool : st.connectionPool = none)
    (htok : tokenTruthy st.tokenCache.token = false)
    (hres : w.resolveEndpoint 0 = Except.ok hv)
    (hi : w.issueToken 0 = Except.ok tok)
    (hb : w.buildPool 0 = Except.ok ()) :
    (get_connection_pool w stg now (initCtx st)).1 = Except.ok st.poolsBuilt
    ∧ (get_connection_pool w stg now (initCtx st)).2.trace
        = [Event.resolveEndpoint, Event.issueToken, Event.buildAttempt,
           Event.built st.poolsBuilt] := by
  unfold get_connection_pool get_fresh_token
  have h0 : (initCtx st).nResolve = 0 := rfl
  rw [h0, hres]
  simp [initCtx, hpool, htok, hi, hb, Ctx.nIssue, Ctx.nBuild]

/-- Endpoint resolution failing on the first attempt surfaces the raw
provider error: no reset, no retry, no further provider interaction. -/
theorem wc_resolve_fail {α : Type} (w : World) (stg : Settings) (now : Nat)
    (body : Nat → Ctx → Except PyErr α × Ctx) (st : SvcState) (err : PyErr)
    (hres : w.resolveEndpoint 0 = Except.error err)
    (hop : err.isOperational = false) :
    with_connection w stg now body (initCtx st)
      = (Except.error err, ⟨st, [Event.resolveEndpoint]⟩) := by
  have hgcp : get_connection_pool w stg now (initCtx st)
      = (Except.error err, ⟨st, [Event.resolveEndpoint]⟩) := by
    unfold get_connection_pool
    have h0 : (initCtx st).nResolve = 0 := rfl
    rw [h0, hres]
    simp [initCtx]
  have haal : acquire_and_lease w stg now (initCtx st)
      = (Except.error err, ⟨st, [Event.resolveEndpoint]⟩) := by
    unfold acquire_and_lease
    rw [hgcp]
  have hfa : first_attempt w stg now (initCtx st)
      = (Except.error err, ⟨st, [Event.resolveEndpoint]⟩) := by
    unfold first_attempt
    rw [haal]
  exact wc_fa_raw w stg now body hfa hop

/-- Token issuance failing inside the credential provider while the pool
is being built (no handle, empty cache) surfaces the raw provider error:
no reset, no retry — the run stops after the resolution and the single
issuance attempt (the config snapshot was already stored, as in the
source, where `_pool_config` is assigned before the constructor call). -/
theorem wc_issue_fail {α : Type} (w : World) (stg : Settings) (now : Nat)
    (body : Nat → Ctx → Except PyErr α × Ctx) (st : SvcState)
    (hv : String × String) (err : PyErr)
    (hpool : st.connectionPool = none)
    (htok : tokenTruthy st.tokenCache.token = false)
    (hres : w.resolveEndpoint 0 = Except.ok hv)
    (hie : w.issueToken 0 = Except.error err)
    (hop : err.isOperational = false) :
    with_connection w stg now body (initCtx st)
      = (Except.error err,
         ⟨{ st with
              poolConfig := some ⟨hv.1, 5432, "databricks_postgres", hv.2, "require"⟩ },
          [Event.resolveEndpoint, Event.issueToken]⟩) := by
  have hgcp : get_connection_pool w stg now (initCtx st)
      = (Except.error err,
         ⟨{ st with
              poolConfig := some ⟨hv.1, 5432, "databricks_postgres", hv.2, "require"⟩ },
          [Event.resolveEndpoint, Event.issueToken]⟩) := by
    unfold get_connection_pool get_fresh_token
    have h0 : (initCtx st).nResolve = 0 := rfl
    rw [h0, hres]
    simp [initCtx, hpool, htok, hie, Ctx.nIssue]
  have haal : acquire_and_lease w stg now (initCtx st)
      = (Except.error err,
         ⟨{ st with
              poolConfig := some ⟨hv.1, 5432, "databricks_postgres", hv.2, "require"⟩ },
          [Event.resolveEndpoint, Event.issueToken]⟩) := by
    unfold acquire_and_lease
    rw [hgcp]
  have hfa : first_attempt w stg now (initCtx st)
      = (Except.error err,
         ⟨{ st with
              poolConfig := some ⟨hv.1, 5432, "databricks_postgres", hv.2, "require"⟩ },
          [Event.resolveEndpoint, Event.issueToken]⟩) := by
    unfold first_attempt
    rw [haal]
  exact wc_fa_raw w stg now body hfa hop

/-- C1: if the first attempt inside `get_connection` — acquiring the pool,
leasing a connection, or the liveness probe — raises a connectivity-class
error (`psycopg2.OperationalError`), exactly one recovery cycle runs: the
whole call continues as `reset()` followed by acquire-pool, lease and one
more yield (`retry_path`), with exactly one reset in the final trace and
without re-running the liveness probe on the retry; the pool-build/lease
sequence runs at most twice; and if the second attempt also fails with a
connectivity-class error the caller gets `DatabaseConnectionError` and no
third attempt occurs. -/
theorem C1_retry_protocol {α : Type} (w : World) (stg : Settings) (now : Nat)
    (f : Nat → Except PyErr α) (st : SvcState) {e : PyErr} {c1 : Ctx}
    (hfa : first_attempt w stg now (initCtx st) = (Except.error e, c1))
    (hop : e.isOperational = true) :
    with_connection w stg now (pureBody f) (initCtx st)
        = retry_path w stg now true (pureBody f) c1
    ∧ cnt Event.reset
        (with_connection w stg now (pureBody f) (initCtx st)).2.trace = 1
    ∧ cnt Event.buildAttempt
        (with_connection w stg now (pureBody f) (initCtx st)).2.trace ≤ 2
    ∧ cnt Event.leaseAttempt
        (with_connection w stg now (pureBody f) (initCtx st)).2.trace ≤ 2
    ∧ cnt Event.probe
        (with_connection w stg now (pureBody f) (initCtx st)).2.trace
      = cnt Event.probe c1.trace
    ∧ cnt Event.probe
        (with_connection w stg now (pureBody f) (initCtx st)).2.trace ≤ 1
    ∧ (∀ e2 c2, acquire_and_lease w stg now (reset_pool c1)
          = (Except.error e2, c2) → e2.isOperational = true →
        (with_connection w stg now (pureBody f) (initCtx st)).1
          = Except.error (PyErr.dbConnErr e2.msg)) := by
  have hwc := wc_retry_eq w stg now (pureBody f) hfa hop
  rcases hr : retry_path w stg now true (pureBody f) c1 with ⟨rr, cr⟩
  obtain ⟨R1, R2, R3, R4, R5, R6, R7⟩ :=
    retry_counts w stg now true (pureBody_tame f) hr
  obtain ⟨F1, F2, F3, F4, F5, F6, F7, F8⟩ := fa_err w stg now hfa
  have hz : ∀ ev : Event, cnt ev (initCtx st).trace = 0 := fun ev => rfl
  have hz1 := hz Event.reset
  have hz2 := hz Event.buildAttempt
  have hz3 := hz Event.leaseAttempt
  have hz4 := hz Event.probe
  refine ⟨hwc.trans hr, ?_, ?_, ?_, ?_, ?_, ?_⟩
  · rw [hwc, hr]; dsimp only; omega
  · rw [hwc, hr]; dsimp only; omega
  · rw [hwc, hr]; dsimp only; omega
  · rw [hwc, hr]; dsimp only; omega
  · rw [hwc, hr]; dsimp only; omega
  · intro e2 c2 haal hop2
    rw [hwc, retry_res_op w stg now true (pureBody f) haal hop2]

/-- C1 witness: on a world where every pool construction fails with an
auth-style `OperationalError`, the call performs exactly one reset and
surfaces `DatabaseConnectionError` with the retry error's message. -/
theorem C1_retry_protocol_witness :
    cnt Event.reset
      (with_connection wBuildFail defaultSettings 0
        (pureBody fun cid => Except.ok cid) (initCtx initState)).2.trace = 1
    ∧ (with_connection wBuildFail defaultSettings 0
        (pureBody fun cid => Except.ok cid) (initCtx initState)).1
      = Except.error (PyErr.dbConnErr "password authentication failed") := by
  have H := C1_retry_protocol wBuildFail defaultSettings 0
    (fun cid => Except.ok cid) initState rfl rfl
  exact ⟨H.2.1, H.2.2.2.2.2.2 (PyErr.pgOperational "password authentication failed")
    _ rfl rfl⟩

/-- C2 counterexample: an endpoint-resolution failure inside the credential
provider (a Databricks SDK error, a connectivity error in the spec's
taxonomy) is not recovered by reset+retry and reaches the caller as the
raw provider exception, not as `DatabaseConnectionError` — the run
performs no reset and stops after the single resolution attempt. -/
theorem C2_counterexample :
    with_connection wResolveSdkFail defaultSettings 0 okBody (initCtx initState)
      = (Except.error (PyErr.sdkErr "credential provider unavailable"),
         ⟨initState, [Event.resolveEndpoint]⟩)
    ∧ cnt Event.reset
        (with_connection wResolveSdkFail defaultSettings 0 okBody
          (initCtx initState)).2.trace = 0
    ∧ (∀ d, Except.error (PyErr.sdkErr "credential provider unavailable")
        ≠ (Except.error (PyErr.dbConnErr d) : Except PyErr Nat)) := by
  refine ⟨rfl, rfl, ?_⟩
  intro d h
  simp at h

/-- C2 (amended): connectivity failures that manifest as
`psycopg2.OperationalError` — pool construction failure, lease failure,
dead leased connection — are recovered locally by exactly one reset+retry
and, when they persist, surface as `DatabaseConnectionError`; the caller
never observes a raw `OperationalError`.  Provider (SDK) failures during
endpoint resolution or token issuance, however, propagate as the raw
provider exception with no retry and no reset. -/
theorem C2_connectivity_amended :
    (∀ (α : Type) (w : World) (stg : Settings) (now : Nat)
      (body : Nat → Ctx → Except PyErr α × Ctx) (c : Ctx) (e : PyErr) (c1 : Ctx),
      with_connection w stg now body c = (Except.error e, c1) →
      e.isOperational = false)
    ∧ (∀ (α : Type) (w : World) (stg : Settings) (now : Nat)
        (body : Nat → Ctx → Except PyErr α × Ctx) (c : Ctx) (e : PyErr)
        (c1 : Ctx) (e2 : PyErr) (c2 : Ctx),
        first_attempt w stg now c = (Except.error e, c1) →
        e.isOperational = true →
        acquire_and_lease w stg now (reset_pool c1) = (Except.error e2, c2) →
        e2.isOperational = true →
        with_connection w stg now body c
          = (Except.error (PyErr.dbConnErr e2.msg), c2))
    ∧ (∀ (α : Type) (w : World) (stg : Settings) (now : Nat)
        (body : Nat → Ctx → Except PyErr α × Ctx) (st : SvcState) (err : PyErr),
        w.resolveEndpoint 0 = Except.error err →
        err.isOperational = false →
        with_connection w stg now body (initCtx st)
          = (Except.error err, ⟨st, [Event.resolveEndpoint]⟩))
    ∧ (∀ (α : Type) (w : World) (stg : Settings) (now : Nat)
        (body : Nat → Ctx → Except PyErr α × Ctx) (st : SvcState)
        (hv : String × String) (err : PyErr),
        st.connectionPool = none →
        tokenTruthy st.tokenCache.token = false →
        w.resolveEndpoint 0 = Except.ok hv →
        w.issueToken 0 = Except.error err →
        err.isOperational = false →
        with_connection w stg now body (initCtx st)
          = (Except.error err,
             ⟨{ st with
                  poolConfig := some ⟨hv.1, 5432, "databricks_postgres", hv.2, "require"⟩ },
              [Event.resolveEndpoint, Event.issueToken]⟩)) := by
  refine ⟨?_, ?_, ?_, ?_⟩
  · intro α w stg now body c e c1 h
    exact wc_err_not_op w stg now h
  · intro α w stg now body c e c1 e2 c2 hfa hop haal hop2
    exact wc_persistent_dce w stg now body hfa hop haal hop2
  · intro α w stg now body st err hres hop
    exact wc_resolve_fail w stg now body st err hres hop
  · intro α w stg now body st hv err hpool htok hres hie hop
    exact wc_issue_fail w stg now body st hv err hpool htok hres hie hop

/-- C2 witness: persistent operational failure yields
`DatabaseConnectionError`; an endpoint-resolution failure yields the raw
SDK error with no reset; a token-issuance failure likewise reaches the
caller raw, with no reset and no retry. -/
theorem C2_connectivity_amended_witness :
    (PyErr.sdkErr "credential provider unavailable").isOperational = false
    ∧ with_connection wBuildFail defaultSettings 0 okBody (initCtx initState)
        = (Except.error (PyErr.dbConnErr "password authentication failed"),
           (with_connection wBuildFail defaultSettings 0 okBody
             (initCtx initState)).2)
    ∧ with_connection wResolveSdkFail defaultSettings 0 okBody (initCtx initState)
        = (Except.error (PyErr.sdkErr "credential provider unavailable"),
           ⟨initState, [Event.resolveEndpoint]⟩)
    ∧ (with_connection wIssueSdkFail defaultSettings 0 okBody
        (initCtx initState)).1 = Except.error (PyErr.sdkErr "token issuance denied")
    ∧ cnt Event.reset
        (with_connection wIssueSdkFail defaultSettings 0 okBody
          (initCtx initState)).2.trace = 0 := by
  have h4 := C2_connectivity_amended.2.2.2 Nat wIssueSdkFail defaultSettings 0
    okBody initState ("host.example", "user@example.com")
    (PyErr.sdkErr "token issuance denied") rfl rfl rfl rfl rfl
  refine ⟨?_, ?_, ?_, ?_, ?_⟩
  · exact C2_connectivity_amended.1 Nat wResolveSdkFail defaultSettings 0 okBody
      (initCtx initState) (PyErr.sdkErr "credential provider unavailable")
      ⟨initState, [Event.resolveEndpoint]⟩ rfl
  · have := C2_connectivity_amended.2.1 Nat wBuildFail defaultSettings 0 okBody
      (initCtx initState) (PyErr.pgOperational "password authentication failed")
      _ (PyErr.pgOperational "password authentication failed") _ rfl rfl rfl rfl
    rw [this]
    rfl
  · exact C2_connectivity_amended.2.2.1 Nat wResolveSdkFail defaultSettings 0
      okBody initState (PyErr.sdkErr "credential provider unavailable") rfl rfl
  · rw [h4]
  · rw [h4]
    rfl

/-- C3 counterexample: with a cached pool handle, `_get_connection_pool`
still performs one endpoint resolution (it resolves the instance and the
current user before checking the handle), so "zero endpoint resolutions"
is false; the handle itself is returned unchanged. -/
theorem C3_counterexample :
    get_connection_pool wOk defaultSettings 0
        (initCtx ⟨⟨none, 0⟩, some 0, none, 0⟩)
      = (Except.ok 0, ⟨⟨⟨none, 0⟩, some 0, none, 0⟩, [Event.resolveEndpoint]⟩)
    ∧ cnt Event.resolveEndpoint
        (get_connection_pool wOk defaultSettings 0
          (initCtx ⟨⟨none, 0⟩, some 0, none, 0⟩)).2.trace = 1
    ∧ cnt Event.issueToken
        (get_connection_pool wOk defaultSettings 0
          (initCtx ⟨⟨none, 0⟩, some 0, none, 0⟩)).2.trace = 0 := by
  exact ⟨rfl, rfl, rfl⟩

/-- C3 (amended): when a pool handle exists (and the unconditional
endpoint resolution succeeds), `_get_connection_pool` returns the cached
handle unchanged with zero token issuances but one endpoint resolution per
call; when no handle exists and the token cache is empty — as after
`reset()` — it performs exactly one endpoint resolution and one token
issuance to build the pool. -/
theorem C3_acquire_pool_amended :
    (∀ (w : World) (stg : Settings) (now : Nat) (st : SvcState)
      (pid : Nat) (hv : String × String),
      st.connectionPool = some pid →
      w.resolveEndpoint 0 = Except.ok hv →
      get_connection_pool w stg now (initCtx st)
        = (Except.ok pid, ⟨st, [Event.resolveEndpoint]⟩))
    ∧ (∀ (w : World) (stg : Settings) (now : Nat) (st : SvcState)
        (hv : String × String) (tok : String),
        st.connectionPool = none →
        tokenTruthy st.tokenCache.token = false →
        w.resolveEndpoint 0 = Except.ok hv →
        w.issueToken 0 = Except.ok tok →
        w.buildPool 0 = Except.ok () →
        (get_connection_pool w stg now (initCtx st)).1 = Except.ok st.poolsBuilt
        ∧ (get_connection_pool w stg now (initCtx st)).2.trace
            = [Event.resolveEndpoint, Event.issueToken, Event.buildAttempt,
               Event.built st.poolsBuilt]) := by
  constructor
  · intro w stg now st pid hv hpool hres
    exact gcp_cached w stg now st pid hv hpool hres
  · intro w stg now st hv tok hpool htok hres hi hb
    exact gcp_fresh w stg now st hv tok hpool htok hres hi hb

/-- C3 witness: cached-handle call resolves once and issues nothing; the
first call after reset resolves once and issues once. -/
theorem C3_acquire_pool_amended_witness :
    get_connection_pool wOk defaultSettings 0
        (initCtx ⟨⟨none, 0⟩, some 7, none, 1⟩)
      = (Except.ok 7, ⟨⟨⟨none, 0⟩, some 7, none, 1⟩, [Event.resolveEndpoint]⟩)
    ∧ (get_connection_pool wOk defaultSettings 0 (initCtx initState)).1
        = Except.ok 0
    ∧ (get_connection_pool wOk defaultSettings 0 (initCtx initState)).2.trace
        = [Event.resolveEndpoint, Event.issueToken, Event.buildAttempt,
           Event.built 0] := by
  refine ⟨?_, ?_⟩
  · exact C3_acquire_pool_amended.1 wOk defaultSettings 0
      ⟨⟨none, 0⟩, some 7, none, 1⟩ 7 ("host.example", "user@example.com") rfl rfl
  · exact C3_acquire_pool_amended.2 wOk defaultSettings 0 initState
      ("host.example", "user@example.com") "tok" rfl rfl rfl rfl rfl

/-- C4: `_get_fresh_token` returns the cached token with no provider call
whenever a cached token exists (is truthy, as the source tests) and the
current time is strictly before the cached expiry; otherwise it calls the
provider once, caches the returned token, sets the expiry to
`now + token_refresh_interval`, and returns the new token; and for any
sequence of calls while the cached token has not expired, the provider is
contacted exactly once — on the first call. -/
theorem C4_token_cache :
    (∀ (w : World) (stg : Settings) (now : Nat) (c : Ctx),
      tokenTruthy c.st.tokenCache.token = true →
      now < c.st.tokenCache.expiresAt →
      get_fresh_token w stg now c
        = (Except.ok (c.st.tokenCache.token.getD ""), c))
    ∧ (∀ (w : World) (stg : Settings) (now : Nat) (c : Ctx) (tok : String),
        (tokenTruthy c.st.tokenCache.token
          && decide (now < c.st.tokenCache.expiresAt)) = false →
        w.issueToken c.nIssue = Except.ok tok →
        get_fresh_token w stg now c
          = (Except.ok tok,
             ⟨{ c.st with
                  tokenCache := ⟨some tok, now + stg.tokenRefreshInterval⟩ },
              c.trace ++ [Event.issueToken]⟩))
    ∧ (∀ (w : World) (stg : Settings) (st : SvcState) (t0 : Nat)
        (rest : List Nat) (tok : String),
        tokenTruthy st.tokenCache.token = false →
        w.issueToken 0 = Except.ok tok →
        tok ≠ "" →
        (∀ t ∈ rest, t < t0 + stg.tokenRefreshInterval) →
        (run_token_calls w stg (t0 :: rest) (initCtx st)).trace
          = [Event.issueToken]) :=
  ⟨fun w stg now c htok hlt => gft_hit w stg now c htok hlt,
   fun w stg now c tok hmiss hi => gft_miss w stg now c tok hmiss hi,
   fun w stg st t0 rest tok h0 hi htok hrest =>
     token_calls_once w stg st t0 rest tok h0 hi htok hrest⟩

/-- C4 witness: a hit at time 10 on a token expiring at 900 returns the
cached token with no event; a miss issues once and caches expiry
`0 + 900`; the call sequence at times 0, 100, 899 contacts the provider
exactly once. -/
theorem C4_token_cache_witness :
    get_fresh_token wOk defaultSettings 10
        ⟨⟨⟨some "cached", 900⟩, none, none, 0⟩, []⟩
      = (Except.ok "cached", ⟨⟨⟨some "cached", 900⟩, none, none, 0⟩, []⟩)
    ∧ get_fresh_token wOk defaultSettings 0 (initCtx initState)
        = (Except.ok "tok",
           ⟨⟨⟨some "tok", 900⟩, none, none, 0⟩, [Event.issueToken]⟩)
    ∧ (run_token_calls wOk defaultSettings [0, 100, 899] (initCtx initState)).trace
        = [Event.issueToken] := by
  refine ⟨?_, ?_, ?_⟩
  · exact C4_token_cache.1 wOk defaultSettings 10
      ⟨⟨⟨some "cached", 900⟩, none, none, 0⟩, []⟩ (by decide) (by decide)
  · have := C4_token_cache.2.1 wOk defaultSettings 0 (initCtx initState) "tok"
      (by decide) rfl
    rw [this]
    rfl
  · exact C4_token_cache.2.2 wOk defaultSettings initState 0 [100, 899] "tok"
      rfl rfl (by decide) (by decide)

/-- C5: for every use of `with_connection` with a tame caller block (one
that does not itself lease or release pooled connections — the
repository's blocks only run cursor operations), every connection leased
from a pool during the call is returned on every exit path: in the final
trace, `getconn` and `putconn` events are in bijection for every
pool/connection pair, so the pool's set of outstanding leases is unchanged
once the call finishes. -/
theorem C5_scoped_release {α : Type} (w : World) (stg : Settings) (now : Nat)
    (body : Nat → Ctx → Except PyErr α × Ctx) (st : SvcState)
    (r : Except PyErr α) (c1 : Ctx)
    (hbody : BodyTame body)
    (h : with_connection w stg now body (initCtx st) = (r, c1)) :
    LeaseBalanced c1.trace := by
  intro p i
  have hb := (wc_counts w stg now hbody h).2.2.2.2.2.2 p i
  have hz1 : cnt (Event.getconn p i) (initCtx st).trace = 0 := rfl
  have hz2 : cnt (Event.putconn p i) (initCtx st).trace = 0 := rfl
  omega

/-- C5 witness: on the run where the caller's block raises
`OperationalError` after the yield (the thrown-in-exception path through
reset, rebuild and the protocol RuntimeError), every leased connection is
returned. -/
theorem C5_scoped_release_witness :
    LeaseBalanced (with_connection wOk defaultSettings 0 opFailBody
      (initCtx initState)).2.trace :=
  C5_scoped_release wOk defaultSettings 0 opFailBody initState _ _
    (pureBody_tame _) rfl

/-- C6 counterexample: a `psycopg2.InterfaceError` raised during execution
is not in the SQL-execution class (malformed statement, constraint
violation, type mismatch) and is not a `DatabaseConnectionError`, yet
`execute_query` catches it and re-raises `DatabaseQueryError` instead of
letting it propagate as-is. -/
theorem C6_counterexample :
    (execute_query wQueryInterfaceFail defaultSettings 0 "SELECT 1 AS x" []
        (initCtx initState)).1
      = Except.error (PyErr.dbQueryErr "connection already closed")
    ∧ PyErr.isSqlExecClass (PyErr.pgInterface "connection already closed") = false
    ∧ PyErr.isDbConn (PyErr.pgInterface "connection already closed") = false :=
  ⟨rfl, rfl, rfl⟩

/-- C6 (amended): for every call to `execute_query`, a
`DatabaseConnectionError` from the connection manager propagates
unchanged; every `psycopg2.Error` — the SQL-execution classes and also
other driver errors such as `InterfaceError` or pool exhaustion — is
caught and re-raised as `DatabaseQueryError` whose detail is the
underlying error's message; and an exception that is neither a
`DatabaseConnectionError` nor a psycopg2 error propagates as-is. -/
theorem C6_error_mapping_amended (w : World) (stg : Settings) (now : Nat)
    (sql : String) (params : List PyVal) (c : Ctx)
    {r0 : Except PyErr (List (List (String × PyVal)))} {c0 : Ctx}
    (hwc : with_connection w stg now (cursor_body w stg.lakebaseSchema sql params) c
      = (r0, c0)) :
    (∀ v, r0 = Except.ok v →
      execute_query w stg now sql params c = (Except.ok v, c0))
    ∧ (∀ e, r0 = Except.error e → e.isDbConn = true →
        execute_query w stg now sql params c = (Except.error e, c0))
    ∧ (∀ e, r0 = Except.error e → e.isDbConn = false → e.isPsycopg2 = true →
        execute_query w stg now sql params c
          = (Except.error (PyErr.dbQueryErr e.msg), c0))
    ∧ (∀ e, r0 = Except.error e → e.isDbConn = false → e.isPsycopg2 = false →
        execute_query w stg now sql params c = (Except.error e, c0)) :=
  execute_query_dispatch w stg now sql params c hwc

/-- C6 witness: a `ProgrammingError` from the driver is re-raised as
`DatabaseQueryError` carrying its message. -/
theorem C6_error_mapping_amended_witness :
    (execute_query wQueryProgFail defaultSettings 0 "SELECT 1 AS x" []
        (initCtx initState)).1
      = Except.error (PyErr.dbQueryErr "syntax error at or near SELEC") := by
  have H := C6_error_mapping_amended wQueryProgFail defaultSettings 0
    "SELECT 1 AS x" [] (initCtx initState) rfl
  have h2 := H.2.2.1 (PyErr.pgProgramming "syntax error at or near SELEC")
    rfl rfl rfl
  rw [h2]
  rfl

/-- C7: the SQL text `execute_query` hands to the driver depends only on
the template and the configured schema name — every `execSql` event of any
run carries exactly `formatSchema sql schema`, never the parameter values,
which travel separately as positional bind parameters (so two calls with
the same template and different params send the identical SQL text); the
example template formats to the schema-substituted text, and the bound
literal "Austin" never appears in it. -/
theorem C7_sql_text_independent_of_params :
    (∀ (w : World) (stg : Settings) (now : Nat) (sql : String)
      (params : List PyVal) (st : SvcState) (s : String) (ps : List PyVal),
      Event.execSql s ps
          ∈ (execute_query w stg now sql params (initCtx st)).2.trace →
      s = formatSchema sql stg.lakebaseSchema)
    ∧ formatSchema "SELECT city FROM {schema}.city_investment WHERE city = %s"
        "gold" = "SELECT city FROM gold.city_investment WHERE city = %s"
    ∧ ¬ ("Austin".toList
        <:+: (formatSchema "SELECT city FROM {schema}.city_investment WHERE city = %s"
          "gold").toList) := by
  refine ⟨?_, by decide, by decide⟩
  intro w stg now sql params st s ps hmem
  rcases hwc : with_connection w stg now
      (cursor_body w stg.lakebaseSchema sql params) (initCtx st) with ⟨r0, c0⟩
  have hpres := wc_sqlTexts w stg now
    (cursor_body_sqlTexts w stg.lakebaseSchema sql params) hwc
    (by intro s2 ps2 h2; exact absurd h2 (List.not_mem_nil _))
  rw [execute_query_ctx, hwc] at hmem
  exact hpres s ps hmem

/-- C7 witness: in the concrete run of `SELECT 1 AS x`, the text the
driver received is the schema-formatted template. -/
theorem C7_sql_text_witness :
    "SELECT 1 AS x" = formatSchema "SELECT 1 AS x" defaultSettings.lakebaseSchema :=
  C7_sql_text_independent_of_params.1 wOk defaultSettings 0 "SELECT 1 AS x"
    [PyVal.vstr "Austin"] initState "SELECT 1 AS x" [PyVal.vstr "Austin"]
    (by decide)

/-- C8: `execute_query` returns one mapping per fetched result row, built
by zipping the result's column names with that row's values preserving
column order (with pairwise-distinct column names the dict is exactly the
zip, one independent association list per row); in particular
`SELECT 1 AS x` yields `[{"x": 1}]`. -/
theorem C8_row_mapping :
    (∀ (w : World) (stg : Settings) (now : Nat) (sql : String)
      (params : List PyVal) (c : Ctx) (cols : List String)
      (rows : List (List PyVal)) (rs : List (List (String × PyVal))),
      w.query (formatSchema sql stg.lakebaseSchema) params
        = Except.ok (cols, rows) →
      cols.Nodup →
      (execute_query w stg now sql params c).1 = Except.ok rs →
      rs = rows.map (fun row => cols.zip row))
    ∧ (execute_query wOk defaultSettings 0 "SELECT 1 AS x" []
        (initCtx initState)).1 = Except.ok [[("x", PyVal.vint 1)]] := by
  constructor
  · intro w stg now sql params c cols rows rs hq hnodup hok
    rcases hwc : with_connection w stg now
        (cursor_body w stg.lakebaseSchema sql params) c with ⟨r0, c0⟩
    obtain ⟨D1, D2, D3, D4⟩ := execute_query_dispatch w stg now sql params c hwc
    rcases r0 with e | v
    · by_cases hdb : e.isDbConn = true
      · rw [D2 e rfl hdb] at hok
        simp at hok
      · have hdb2 : e.isDbConn = false := by simpa using hdb
        by_cases hpg : e.isPsycopg2 = true
        · rw [D3 e rfl hdb2 hpg] at hok
          simp at hok
        · have hpg2 : e.isPsycopg2 = false := by simpa using hpg
          rw [D4 e rfl hdb2 hpg2] at hok
          simp at hok
    · rw [D1 v rfl] at hok
      simp at hok
      subst hok
      have hval := wc_ok_val w stg now
        (fun cid cx => cursor_body_val w stg.lakebaseSchema sql params cid cx) hwc
      rw [hq] at hval
      simp at hval
      have hzip : ∀ row, rowDict cols row = cols.zip row :=
        fun row => rowDict_eq_zip cols row hnodup
      simp only [hzip] at hval
      exact hval.symm
  · rfl

/-- C8 witness: the concrete single-row result is the zip of the column
list with the row. -/
theorem C8_row_mapping_witness :
    [[("x", PyVal.vint 1)]]
      = [[PyVal.vint 1]].map (fun row => ["x"].zip row) :=
  C8_row_mapping.1 wOk defaultSettings 0 "SELECT 1 AS x" []
    (initCtx initState) ["x"] [[PyVal.vint 1]] [[("x", PyVal.vint 1)]]
    rfl (by decide) rfl

/-- C9: when the caller's block raises `psycopg2.OperationalError` after
the connection has been yielded, `get_connection` neither propagates that
error nor performs a clean single retry: the exception thrown into the
generator is caught by the retry handler, the pool is reset (exactly one
reset) and rebuilt, and the generator yields a second time, which the
contextmanager protocol converts into a `RuntimeError` — so the caller
observes neither the original `OperationalError` nor a
`DatabaseConnectionError`. -/
theorem C9_second_yield_runtime_error {α : Type} (w : World) (stg : Settings)
    (now : Nat) (f : Nat → Except PyErr α) (m : String) (st : SvcState)
    {pc : Nat × Nat} {c1 : Ctx}
    (hfa : first_attempt w stg now (initCtx st) = (Except.ok pc, c1))
    (hb : f pc.2 = Except.error (PyErr.pgOperational m))
    (hretry : ∃ pc2 c2, acquire_and_lease w stg now
      (reset_pool (pool_putconn pc.1 pc.2 c1)) = (Except.ok pc2, c2)) :
    (with_connection w stg now (pureBody f) (initCtx st)).1
        = Except.error (PyErr.runtimeGenErr "generator did not stop after throw")
    ∧ cnt Event.reset
        (with_connection w stg now (pureBody f) (initCtx st)).2.trace = 1
    ∧ (with_connection w stg now (pureBody f) (initCtx st)).1
        ≠ Except.error (PyErr.pgOperational m)
    ∧ (∀ d, (with_connection w stg now (pureBody f) (initCtx st)).1
        ≠ Except.error (PyErr.dbConnErr d)) := by
  obtain ⟨pc2, c2, haal⟩ := hretry
  have hb2 : pureBody f pc.2 c1 = (Except.error (PyErr.pgOperational m), c1) := by
    simp [pureBody, hb]
  have hwc := wc_body_err_op w stg now (pureBody f) hfa hb2 rfl
  rw [hwc, retry_second_yield w stg now (pureBody f) haal]
  obtain ⟨A1, A2, A3, A4, A5, A6, A7, A8⟩ := aal_ok w stg now haal
  obtain ⟨F1, F2, F3, F4, F5, F6, F7, F8⟩ := fa_ok w stg now hfa
  rw [reset_pool_trace, pool_putconn_trace] at A6
  simp at A6
  have hz : cnt Event.reset (initCtx st).trace = 0 := rfl
  refine ⟨rfl, ?_, ?_, ?_⟩
  · dsimp only
    rw [pool_putconn_trace]
    simp
    omega
  · dsimp only
    intro hcontra
    simp at hcontra
  · intro d hcontra
    simp at hcontra

/-- C9 witness: the concrete run where the caller's cursor work dies with
an SSL `OperationalError` surfaces the protocol `RuntimeError`. -/
theorem C9_second_yield_runtime_error_witness :
    (with_connection wOk defaultSettings 0 opFailBody (initCtx initState)).1
      = Except.error (PyErr.runtimeGenErr "generator did not stop after throw") := by
  have H := C9_second_yield_runtime_error wOk defaultSettings 0
    (fun _ => (Except.error
      (PyErr.pgOperational "SSL connection has been closed unexpectedly")
        : Except PyErr Nat))
    "SSL connection has been closed unexpectedly" initState rfl rfl
    ⟨(1, 101), _, rfl⟩
  exact H.1

/-- C10 (evaluating the unsynchronised code at the failing interleaving):
`_get_connection_pool` checks `_connection_pool is None` and assigns it
with no lock, so when two concurrent callers both pass the check before
either assigns — schedule [check₁, check₂, build₁, build₂] — two pools are
constructed, the two callers hold different pools, and the second build's
handle overwrites the first: the claim's "exactly one pool constructed and
shared by all callers" fails on the source. -/
theorem C10_race_two_pools :
    runSchedule [true, false, true, false]
      = ⟨some 1, 2, ThreadPhase.done 0, ThreadPhase.done 1⟩
    ∧ (runSchedule [true, false, true, false]).built = 2
    ∧ (runSchedule [true, false, true, false]).thread1
        ≠ (runSchedule [true, false, true, false]).thread2 := by
  refine ⟨rfl, rfl, by decide⟩

end Lakebase
